import Mathlib

/-!
Verification development for the `conrod_floatwin` floating-window layout
engine (`src/windowing_area/layout.rs` and its submodules `dim.rs` and
`snapping.rs`).

The Rust code is shallowly embedded: `f32`/`f64` values are modelled as
exact rationals (`ℚ`), `i32` values as `ℤ`, vectors as lists, and every
mutating method of `WindowingState` becomes a pure function from state to
state.  Rust's `f32::round` (round half away from zero) is modelled by
`rrnd`, and `as i32` casts (truncation toward zero) by `rtrunc`.
-/

set_option allowUnsafeReducibility true

attribute [semireducible] Rat.mul Rat.add Rat.sub Rat.inv Rat.div

namespace Floatwin

/-- Rust `f32::round` / `f64::round`: round half away from zero. -/
def rrnd (q : ℚ) : ℤ :=
  if 0 ≤ q then ⌊q + 1 / 2⌋ else ⌈q - 1 / 2⌉

/-- Rust `as i32` cast from a float: truncation toward zero. -/
def rtrunc (q : ℚ) : ℤ :=
  if 0 ≤ q then ⌊q⌋ else ⌈q⌉

/-- `Rect<f32>` from `dim.rs`. -/
structure RectQ where
  x : ℚ
  y : ℚ
  w : ℚ
  h : ℚ
  deriving DecidableEq

/-- `Rect<i32>` from `dim.rs`. -/
structure RectZ where
  x : ℤ
  y : ℤ
  w : ℤ
  h : ℤ
  deriving DecidableEq

/-- `Size<f32>` from `dim.rs`. -/
structure SizeQ where
  w : ℚ
  h : ℚ
  deriving DecidableEq

/-- `Size<i32>` from `dim.rs`. -/
structure SizeZ where
  w : ℤ
  h : ℤ
  deriving DecidableEq

def RectZ.size (r : RectZ) : SizeZ := ⟨r.w, r.h⟩

/-- `DimRange<i32, D>` from `dim.rs`; the constructor `DimRange::new`
swaps the bounds when given in decreasing order. -/
structure DimRange where
  lower : ℤ
  upper : ℤ
  deriving DecidableEq

def DimRange.new (a b : ℤ) : DimRange :=
  if a > b then ⟨b, a⟩ else ⟨a, b⟩

def DimRange.overlaps_with (s o : DimRange) : Bool :=
  s.lower < o.upper && o.lower < s.upper

/-- Horizontal extent of a rectangle (`Rect::range::<Horizontal>`). -/
def RectZ.range_h (r : RectZ) : DimRange := DimRange.new r.x (r.x + r.w)

/-- Vertical extent of a rectangle (`Rect::range::<Vertical>`). -/
def RectZ.range_v (r : RectZ) : DimRange := DimRange.new r.y (r.y + r.h)

/-- `SnapSegment` from `snapping.rs`: a candidate alignment line plus the
perpendicular interval it is valid over. -/
structure SnapSegment where
  perpendicular_dim : ℤ
  dim_range : DimRange
  deriving DecidableEq

/-- `Anchor` from `snapping.rs`. -/
inductive Anchor where
  | none
  | lowerEdge
  | upperEdge
  | lowerAndUpperEdges
  deriving DecidableEq

/-- `HitTest` from `layout.rs`. -/
inductive HitTest where
  | content
  | titleBarOrDragArea
  | topBorder
  | leftBorder
  | rightBorder
  | bottomBorder
  | topLeftCorner
  | topRightCorner
  | bottomLeftCorner
  | bottomRightCorner
  deriving DecidableEq

/-- `WindowDragAction1D` from `layout.rs`. -/
inductive WindowDragAction1D where
  | none
  | moveWindow
  | resizeLower
  | resizeUpper
  deriving DecidableEq

/-- `HitTest::to_drag_action_1d::<Horizontal>`. -/
def HitTest.to_drag_action_x : HitTest → WindowDragAction1D
  | .content | .topBorder | .bottomBorder => .none
  | .titleBarOrDragArea => .moveWindow
  | .leftBorder | .topLeftCorner | .bottomLeftCorner => .resizeLower
  | .rightBorder | .topRightCorner | .bottomRightCorner => .resizeUpper

/-- `HitTest::to_drag_action_1d::<Vertical>`. -/
def HitTest.to_drag_action_y : HitTest → WindowDragAction1D
  | .content | .leftBorder | .rightBorder => .none
  | .titleBarOrDragArea => .moveWindow
  | .topBorder | .topLeftCorner | .topRightCorner => .resizeLower
  | .bottomBorder | .bottomLeftCorner | .bottomRightCorner => .resizeUpper

/-- Whether the hit test denotes one of the four borders or four corners
(the guard of the collapsed-window resize refusal in `win_drag_start`). -/
def HitTest.is_border_or_corner : HitTest → Bool
  | .topBorder | .leftBorder | .rightBorder | .bottomBorder
  | .topLeftCorner | .topRightCorner | .bottomLeftCorner | .bottomRightCorner => true
  | .content | .titleBarOrDragArea => false

/-- `FrameMetrics` from `layout.rs`. -/
structure FrameMetrics where
  border_thickness : ℚ
  title_bar_height : ℚ
  gap_below_title_bar : ℚ
  collapsed_win_width : ℚ
  title_button_padding : ℚ
  title_button_width : ℚ
  title_text_padding : ℚ
  deriving DecidableEq

/-- `FrameMetrics::with_hidpi_factor`. -/
def FrameMetrics.with_hidpi_factor (hidpi_factor : ℚ) : FrameMetrics :=
  let t : ℤ := rtrunc hidpi_factor
  let dpi_int : ℚ := if hidpi_factor - t < 51 / 100 then t else t + 1
  let border_thickness := 4 * dpi_int / hidpi_factor
  let gap_below_title_bar := 1 * dpi_int / hidpi_factor
  let title_bar_height := (rrnd (18 * hidpi_factor) : ℚ) / hidpi_factor
  let collapsed_win_width :=
    (rrnd (150 * hidpi_factor + border_thickness * hidpi_factor * 2) : ℚ) / hidpi_factor
  let title_button_padding := (rrnd (2 * hidpi_factor) : ℚ) / hidpi_factor
  let title_button_width := (rrnd (16 * hidpi_factor) : ℚ) / hidpi_factor
  let title_text_padding := (rrnd (4 * hidpi_factor) : ℚ) / hidpi_factor
  { border_thickness := border_thickness
    title_bar_height := title_bar_height
    gap_below_title_bar := gap_below_title_bar
    collapsed_win_width := collapsed_win_width
    title_button_padding := title_button_padding
    title_button_width := title_button_width
    title_text_padding := title_text_padding }

/-- `WindowState` from `layout.rs` (one per live window slot). -/
structure WindowState where
  rect : RectQ
  min_size : SizeQ
  is_hidden : Bool
  is_collapsed : Bool
  is_needed : Bool
  anchor_x : Anchor
  anchor_y : Anchor
  deriving DecidableEq

/-- `WindowInitialState` from `layout.rs` (data produced by the `init`
callback of `ensure_init`). -/
structure WindowInitialState where
  client_size : ℚ × ℚ
  position : Option (ℚ × ℚ)
  min_size : Option (ℚ × ℚ)
  is_collapsed : Bool
  deriving DecidableEq

/-- `DraggingState` from `layout.rs`.  `WinId` is modelled as the slot
index (`ℕ`). -/
structure DraggingState where
  win_id : ℕ
  dragging_hit_test : HitTest
  starting_rect : RectZ
  snap_candidates_x : List (ℕ × SnapSegment)
  last_snapped_x : Option ℕ
  snap_candidates_y : List (ℕ × SnapSegment)
  last_snapped_y : Option ℕ
  deriving DecidableEq

/-- `WindowingState` from `layout.rs`. -/
structure WindowingState where
  area_size : ℚ × ℚ
  hidpi_factor : ℚ
  window_states : List (Option WindowState)
  window_z_orders : List ℕ
  bottom_to_top_list : List ℕ
  frame_metrics : FrameMetrics
  maybe_dragging_window : Option DraggingState
  next_auto_position : ℚ × ℚ
  deriving DecidableEq

/-- `WindowingState::new`. -/
def WindowingState.new : WindowingState :=
  { area_size := (16777216, 16777216)
    hidpi_factor := 1
    window_states := []
    window_z_orders := []
    bottom_to_top_list := []
    frame_metrics := FrameMetrics.with_hidpi_factor 1
    maybe_dragging_window := none
    next_auto_position := (32, 32) }

namespace WindowingState

/-- Lookup of `self.window_states[win_idx]` (`None` also for an
out-of-range index, which in Rust would panic; claims only exercise
in-range indices). -/
def getWin (s : WindowingState) (win_id : ℕ) : Option WindowState :=
  (s.window_states.get? win_id).join

/-- `WindowingState::win_is_hidden`. -/
def win_is_hidden (s : WindowingState) (win_id : ℕ) : Bool :=
  (s.getWin win_id).elim true (·.is_hidden)

/-- `WindowingState::win_is_collapsed`. -/
def win_is_collapsed (s : WindowingState) (win_id : ℕ) : Bool :=
  (s.getWin win_id).elim false (·.is_collapsed)

/-- `WindowingState::win_normal_rect`. -/
def win_normal_rect (s : WindowingState) (win_id : ℕ) : Option RectQ :=
  (s.getWin win_id).map fun win =>
    let f := s.hidpi_factor
    { x := (rrnd (win.rect.x * f) : ℚ) / f
      y := (rrnd (win.rect.y * f) : ℚ) / f
      w := (rrnd (win.rect.w * f) : ℚ) / f
      h := (rrnd (win.rect.h * f) : ℚ) / f }

/-- `WindowingState::win_normal_rect_int`. -/
def win_normal_rect_int (s : WindowingState) (win_id : ℕ) : Option RectZ :=
  (s.getWin win_id).map fun win =>
    let f := s.hidpi_factor
    { x := rrnd (win.rect.x * f)
      y := rrnd (win.rect.y * f)
      w := rrnd (win.rect.w * f)
      h := rrnd (win.rect.h * f) }

/-- `WindowingState::win_display_rect`. -/
def win_display_rect (s : WindowingState) (win_id : ℕ) : Option RectQ :=
  (s.getWin win_id).bind fun win =>
    if win.is_hidden then none
    else if win.is_collapsed then
      let f := s.hidpi_factor
      some { x := (rrnd (win.rect.x * f) : ℚ) / f
             y := (rrnd (win.rect.y * f) : ℚ) / f
             w := s.frame_metrics.collapsed_win_width
             h := s.frame_metrics.title_bar_height + s.frame_metrics.border_thickness * 2 }
    else s.win_normal_rect win_id

/-- `WindowingState::win_display_rect_int`. -/
def win_display_rect_int (s : WindowingState) (win_id : ℕ) : Option RectZ :=
  (s.getWin win_id).bind fun win =>
    if win.is_hidden then none
    else if win.is_collapsed then
      let f := s.hidpi_factor
      some { x := rrnd (win.rect.x * f)
             y := rrnd (win.rect.y * f)
             w := rrnd (s.frame_metrics.collapsed_win_width * f)
             h := rrnd ((s.frame_metrics.title_bar_height
                          + s.frame_metrics.border_thickness * 2) * f) }
    else s.win_normal_rect_int win_id

/-- Conversion of a device-pixel rectangle back to logical units, as done
by `set_win_normal_rect_int`. -/
def rectIntToF (f : ℚ) (r : RectZ) : RectQ :=
  { x := (r.x : ℚ) / f, y := (r.y : ℚ) / f, w := (r.w : ℚ) / f, h := (r.h : ℚ) / f }

/-- `WindowingState::set_win_normal_rect_int`. -/
def set_win_normal_rect_int (s : WindowingState) (win_id : ℕ) (r : RectZ) :
    WindowingState :=
  match s.getWin win_id with
  | none => s
  | some win =>
    { s with window_states :=
        s.window_states.set win_id (some { win with rect := rectIntToF s.hidpi_factor r }) }

/-- `WindowingState::set_win_normal_rect`. -/
def set_win_normal_rect (s : WindowingState) (win_id : ℕ) (r : RectQ) :
    WindowingState :=
  match s.getWin win_id with
  | none => s
  | some win =>
    { s with window_states := s.window_states.set win_id (some { win with rect := r }) }

/-- `WindowingState::topmost_win`. -/
def topmost_win (s : WindowingState) : Option ℕ :=
  s.bottom_to_top_list.getLast?

/-- `WindowingState::win_z_order` (Rust panics on an out-of-range id;
the default `0` is never exercised by the claims). -/
def win_z_order (s : WindowingState) (win_id : ℕ) : ℕ :=
  s.window_z_orders.getD win_id 0

/-- `WindowingState::next_id`: allocate a fresh slot.  Returns the new
state together with the allocated `WinId`. -/
def next_id (s : WindowingState) : WindowingState × ℕ :=
  let id := s.window_states.length
  ({ s with
      window_states := s.window_states ++ [none]
      window_z_orders := s.window_z_orders ++ [id]
      bottom_to_top_list := s.bottom_to_top_list ++ [id] }, id)

/-- `<[T]>::rotate_left(1)` on a list. -/
def rotl1 : List ℕ → List ℕ
  | [] => []
  | a :: rest => rest ++ [a]

/-- The z-order reassignment loop of `bring_to_top`: for each element `u`
of `sub` at offset `i`, set `window_z_orders[u] := base + i`. -/
def assignZ (zo : List ℕ) (base : ℕ) : List ℕ → List ℕ
  | [] => zo
  | u :: rest => assignZ (zo.set u base) (base + 1) rest

/-- `WindowingState::bring_to_top` (Rust panics when the z-list is empty;
the model returns the state unchanged there, a branch no claim relies
on). -/
def bring_to_top (s : WindowingState) (win_id : ℕ) : WindowingState :=
  match s.bottom_to_top_list.getLast? with
  | none => s
  | some lastw =>
    if lastw = win_id then s
    else
      let z := s.window_z_orders.getD win_id 0
      let sub := rotl1 (s.bottom_to_top_list.drop z)
      { s with
          bottom_to_top_list := s.bottom_to_top_list.take z ++ sub
          window_z_orders := assignZ s.window_z_orders z sub }

/-- `WindowingState::set_needed`. -/
def set_needed (s : WindowingState) (win_id : ℕ) (is_needed : Bool) : WindowingState :=
  match s.getWin win_id with
  | none => s
  | some win =>
    { s with window_states :=
        s.window_states.set win_id (some { win with is_needed := is_needed }) }

/-- `WindowingState::set_all_needed`. -/
def set_all_needed (s : WindowingState) (is_needed : Bool) : WindowingState :=
  { s with window_states :=
      s.window_states.map (Option.map fun win => { win with is_needed := is_needed }) }

/-- `WindowingState::sweep_unneeded`. -/
def sweep_unneeded (s : WindowingState) : WindowingState :=
  { s with window_states :=
      s.window_states.map fun w =>
        if w.elim false (fun x => !x.is_needed) then none else w }

/-- `WindowingState::set_win_min_size`. -/
def set_win_min_size (s : WindowingState) (win_id : ℕ) (min_size : SizeQ) :
    WindowingState :=
  match s.getWin win_id with
  | none => s
  | some win =>
    let win :=
      if win.min_size.w < min_size.w ∨ win.min_size.h < min_size.h then
        let border_thickness := s.frame_metrics.border_thickness
        let title_bar_height := s.frame_metrics.title_bar_height
        let min_w := border_thickness * 2 + min_size.w
        let min_h := border_thickness * 2 + title_bar_height + min_size.h
        let r := win.rect
        let r := if r.w < min_w then { r with w := min_w } else r
        let r := if r.h < min_h then { r with h := min_h } else r
        { win with rect := r }
      else win
    { s with window_states :=
        s.window_states.set win_id (some { win with min_size := min_size }) }

/-- `WindowingState::win_recompute_snapping_rect`. -/
def win_recompute_snapping_rect (s : WindowingState) (win_id : ℕ) : WindowingState :=
  match s.getWin win_id with
  | none => s
  | some win =>
    if win.is_hidden then s
    else if win.anchor_x = Anchor.none ∧ win.anchor_y = Anchor.none then s
    else
      let f := s.hidpi_factor
      let border_thickness := s.frame_metrics.border_thickness
      let title_bar_height := s.frame_metrics.title_bar_height
      let area_w := rtrunc (s.area_size.1 * f)
      let area_h := rtrunc (s.area_size.2 * f)
      let snap_margin := rrnd (8 * f)
      let rect := (s.win_normal_rect_int win_id).getD ⟨0, 0, 0, 0⟩
      let display_size := ((s.win_display_rect_int win_id).getD ⟨0, 0, 0, 0⟩).size
      let min_w := rrnd ((border_thickness * 2 + win.min_size.w) * f)
      let min_h := rrnd ((border_thickness * 2 + title_bar_height + win.min_size.h) * f)
      let rect :=
        match win.anchor_x with
        | Anchor.none => rect
        | Anchor.lowerEdge => { rect with x := 0 + snap_margin }
        | Anchor.upperEdge => { rect with x := area_w - display_size.w - snap_margin }
        | Anchor.lowerAndUpperEdges =>
          let rect := { rect with x := 0 + snap_margin }
          { rect with w := max min_w (area_w - rect.x - snap_margin) }
      let rect :=
        match win.anchor_y with
        | Anchor.none => rect
        | Anchor.lowerEdge => { rect with y := 0 + snap_margin }
        | Anchor.upperEdge => { rect with y := area_h - display_size.h - snap_margin }
        | Anchor.lowerAndUpperEdges =>
          let rect := { rect with y := 0 + snap_margin }
          { rect with h := max min_h (area_h - rect.y - snap_margin) }
      s.set_win_normal_rect_int win_id rect

/-- `WindowingState::set_win_hidden`. -/
def set_win_hidden (s : WindowingState) (win_id : ℕ) (is_hidden : Bool) : WindowingState :=
  match s.getWin win_id with
  | none => s
  | some win =>
    if win.is_hidden = is_hidden then s
    else
      let s' := { s with window_states :=
          s.window_states.set win_id (some { win with is_hidden := is_hidden }) }
      s'.win_recompute_snapping_rect win_id

/-- `WindowingState::set_win_collapsed`. -/
def set_win_collapsed (s : WindowingState) (win_id : ℕ) (is_collapsed : Bool) :
    WindowingState :=
  match s.getWin win_id with
  | none => s
  | some win =>
    if win.is_collapsed = is_collapsed then s
    else
      let s' := { s with window_states :=
          s.window_states.set win_id (some { win with is_collapsed := is_collapsed }) }
      s'.win_recompute_snapping_rect win_id

/-- `WindowingState::recompute_snapped_win_rects` (the loop
`for i in 0..self.window_states.len()`, applied in increasing index
order). -/
def recompute_aux (s : WindowingState) : ℕ → WindowingState
  | 0 => s
  | n + 1 => (recompute_aux s n).win_recompute_snapping_rect n

def recompute_snapped_win_rects (s : WindowingState) : WindowingState :=
  recompute_aux s s.window_states.length

/-- `WindowingState::set_dimensions`. -/
def set_dimensions (s : WindowingState) (area_size : ℚ × ℚ) (hidpi_factor : ℚ) :
    WindowingState :=
  let has_changed := s.area_size ≠ area_size ∨ s.hidpi_factor ≠ hidpi_factor
  let fm :=
    if s.hidpi_factor ≠ hidpi_factor then FrameMetrics.with_hidpi_factor hidpi_factor
    else s.frame_metrics
  let s' := { s with area_size := area_size, hidpi_factor := hidpi_factor,
                     frame_metrics := fm }
  if has_changed then s'.recompute_snapped_win_rects else s'

/-- The per-window body of `ensure_all_win_in_area` (only the position of
a visible window is adjusted). -/
def clampWin (area_size : ℚ × ℚ) (fm : FrameMetrics) (win : WindowState) : WindowState :=
  if win.is_hidden then win
  else
    let border_thickness := fm.border_thickness
    let title_bar_height := fm.title_bar_height
    let collapsed_win_width := fm.collapsed_win_width
    let r := win.rect
    let width_to_test :=
      if win.is_collapsed then collapsed_win_width - border_thickness
      else min collapsed_win_width r.w - border_thickness
    let display_width := if win.is_collapsed then collapsed_win_width else r.w
    let x' :=
      if r.x ≤ width_to_test - display_width - border_thickness then
        width_to_test - display_width - border_thickness
      else if r.x > area_size.1 - width_to_test then area_size.1 - width_to_test
      else r.x
    let y' :=
      if r.y ≤ -border_thickness then -border_thickness
      else if r.y > area_size.2 - (border_thickness + title_bar_height) then
        area_size.2 - (border_thickness + title_bar_height)
      else r.y
    { win with rect := { r with x := x', y := y' } }

/-- `WindowingState::ensure_all_win_in_area`. -/
def ensure_all_win_in_area (s : WindowingState) : WindowingState :=
  { s with window_states :=
      s.window_states.map (Option.map (clampWin s.area_size s.frame_metrics)) }

/-- `WindowingState::ensure_init`.  The Rust `init` closure is modelled by
passing its result (`WindowInitialState`) as an argument. -/
def ensure_init (s : WindowingState) (win_id : ℕ) (initial : WindowInitialState) :
    WindowingState :=
  match s.getWin win_id with
  | some _ => s
  | none =>
    let double_border := s.frame_metrics.border_thickness * 2
    let additional_height :=
      s.frame_metrics.title_bar_height + s.frame_metrics.gap_below_title_bar
    let min_size : SizeQ :=
      match initial.min_size with
      | some m => ⟨m.1, m.2⟩
      | none => ⟨150, 50⟩
    let w := max initial.client_size.1 min_size.w + double_border
    let h := max initial.client_size.2 min_size.h + double_border + additional_height
    let area_h := s.area_size.2
    let posAuto :=
      match initial.position with
      | some p => (p, s.next_auto_position)
      | none =>
        let p0 := s.next_auto_position
        let p := if p0.2 + h > area_h then (32 + (p0.1 - p0.2) + 24, (32 : ℚ)) else p0
        (p, (p.1 + 16, p.2 + 16))
    let win : WindowState :=
      { rect := ⟨posAuto.1.1, posAuto.1.2, w, h⟩
        min_size := min_size
        is_hidden := false
        is_collapsed := initial.is_collapsed
        is_needed := true
        anchor_x := Anchor.none
        anchor_y := Anchor.none }
    let s' := { s with window_states := s.window_states.set win_id (some win),
                       next_auto_position := posAuto.2 }
    s'.bring_to_top win_id

/-- The `check_snap_anchor` helper of `win_drag_end`. -/
def check_snap_anchor (pos display_dim area_dim snap_margin : ℤ) : Anchor :=
  let is_snap_lower : Bool := decide (pos = 0 + snap_margin)
  let is_snap_upper : Bool := decide (pos + display_dim = area_dim - snap_margin)
  match is_snap_lower, is_snap_upper with
  | true, true => Anchor.lowerAndUpperEdges
  | true, false => Anchor.lowerEdge
  | false, true => Anchor.upperEdge
  | false, false => Anchor.none

/-- `WindowingState::win_drag_end`. -/
def win_drag_end (s : WindowingState) (abort : Bool) : WindowingState :=
  match s.maybe_dragging_window with
  | none => s
  | some d =>
    let s₀ := { s with maybe_dragging_window := none }
    if abort then s₀.set_win_normal_rect_int d.win_id d.starting_rect
    else
      match s₀.win_normal_rect_int d.win_id with
      | none => s₀
      | some rect =>
        match s₀.win_display_rect_int d.win_id with
        | none => s₀
        | some dr =>
          let display_size := dr.size
          let f := s₀.hidpi_factor
          let snap_margin := rrnd (8 * f)
          let area_w := rtrunc (s₀.area_size.1 * f)
          let area_h := rtrunc (s₀.area_size.2 * f)
          let anchor_x := check_snap_anchor rect.x display_size.w area_w snap_margin
          let anchor_y := check_snap_anchor rect.y display_size.h area_h snap_margin
          let s₁ :=
            match s₀.getWin d.win_id with
            | none => s₀
            | some win =>
              let win' := { win with anchor_x := anchor_x, anchor_y := anchor_y }
              { s₀ with window_states := s₀.window_states.set d.win_id (some win') }
          s₁.set_win_normal_rect_int d.win_id rect

/-- The base iterator of `win_drag_start`: every other window (slot order)
together with its current display rectangle. -/
def dragBaseList (s : WindowingState) (win_id : ℕ) : List (ℕ × RectZ) :=
  ((List.range s.window_states.length).filter (fun i => i ≠ win_id)).filterMap
    fun i => (s.win_display_rect_int i).map fun r => (i, r)

/-- The `snap_candidates` helper of `win_drag_start`, for the horizontal
direction (candidate vertical lines; perpendicular ranges are vertical). -/
def snap_candidates_for_x (dragging_hit_test : HitTest) (base : List (ℕ × RectZ))
    (snap_margin : ℤ) (win_display_size : SizeZ) : List (ℕ × SnapSegment) :=
  match dragging_hit_test.to_drag_action_x with
  | .none => []
  | .moveWindow =>
    base.flatMap fun p =>
      [(p.1, SnapSegment.mk (p.2.x - snap_margin - win_display_size.w) p.2.range_v),
       (p.1, SnapSegment.mk (p.2.x + p.2.w + snap_margin) p.2.range_v)]
  | .resizeLower =>
    base.map fun p => (p.1, SnapSegment.mk (p.2.x + p.2.w + snap_margin) p.2.range_v)
  | .resizeUpper =>
    base.map fun p => (p.1, SnapSegment.mk (p.2.x - snap_margin) p.2.range_v)

/-- The `snap_candidates` helper of `win_drag_start`, for the vertical
direction. -/
def snap_candidates_for_y (dragging_hit_test : HitTest) (base : List (ℕ × RectZ))
    (snap_margin : ℤ) (win_display_size : SizeZ) : List (ℕ × SnapSegment) :=
  match dragging_hit_test.to_drag_action_y with
  | .none => []
  | .moveWindow =>
    base.flatMap fun p =>
      [(p.1, SnapSegment.mk (p.2.y - snap_margin - win_display_size.h) p.2.range_h),
       (p.1, SnapSegment.mk (p.2.y + p.2.h + snap_margin) p.2.range_h)]
  | .resizeLower =>
    base.map fun p => (p.1, SnapSegment.mk (p.2.y + p.2.h + snap_margin) p.2.range_h)
  | .resizeUpper =>
    base.map fun p => (p.1, SnapSegment.mk (p.2.y - snap_margin) p.2.range_h)

/-- The part of `win_drag_start` that runs after a conflicting previous
drag has been ended. -/
def win_drag_start_fresh (s : WindowingState) (win_id : ℕ)
    (dragging_hit_test : HitTest) : WindowingState × Bool :=
  if dragging_hit_test.is_border_or_corner && s.win_is_collapsed win_id then (s, false)
  else
    match s.win_normal_rect_int win_id with
    | none => (s, false)
    | some starting_rect =>
      let f := s.hidpi_factor
      let snap_margin := rrnd (8 * f)
      match s.win_display_rect_int win_id with
      | none => (s, false)
      | some dr =>
        let win_display_size := dr.size
        let base := s.dragBaseList win_id
        let cx := snap_candidates_for_x dragging_hit_test base snap_margin win_display_size
        let cy := snap_candidates_for_y dragging_hit_test base snap_margin win_display_size
        let d : DraggingState :=
          { win_id := win_id
            dragging_hit_test := dragging_hit_test
            starting_rect := starting_rect
            snap_candidates_x := cx
            last_snapped_x := none
            snap_candidates_y := cy
            last_snapped_y := none }
        ({ s with maybe_dragging_window := some d }, true)

/-- `WindowingState::win_drag_start`.  A drag already in progress on the
same window is first committed; one on a different window is aborted. -/
def win_drag_start (s : WindowingState) (win_id : ℕ) (dragging_hit_test : HitTest) :
    WindowingState × Bool :=
  match s.maybe_dragging_window with
  | some d =>
    if d.win_id = win_id then
      win_drag_start_fresh (s.win_drag_end false) win_id dragging_hit_test
    else
      win_drag_start_fresh (s.win_drag_end true) win_id dragging_hit_test
  | none => win_drag_start_fresh s win_id dragging_hit_test

/-- The scan inside `snap_dimension` over all snap candidates
(`Iterator::find_map` with a running index). -/
def scanCands (try_snap : ℤ → Option ℤ) (dim_range : DimRange) :
    List (ℕ × SnapSegment) → ℕ → Option (ℕ × ℤ)
  | [], _ => none
  | c :: rest, i =>
    if c.2.dim_range.overlaps_with dim_range then
      match try_snap c.2.perpendicular_dim with
      | some v => some (i, v)
      | none => scanCands try_snap dim_range rest (i + 1)
    else scanCands try_snap dim_range rest (i + 1)

/-- The `snap_dimension` helper of `win_drag_update`.  Returns the chosen
snap position (if any) together with the updated `last_snapped` state.
(Rust indexes `snap_candidates[last_snapped]` and would panic on an
out-of-range index; the model treats that as "no snap", a branch never
reached since `last_snapped` always comes from a scan of the same list.) -/
def snap_dimension (try_snap : ℤ → Option ℤ) (dim_range : DimRange)
    (snap_candidates : List (ℕ × SnapSegment)) (last_snapped : Option ℕ) :
    Option ℤ × Option ℕ :=
  let firstTry : Option ℤ :=
    last_snapped.bind fun li =>
      match snap_candidates.get? li with
      | none => none
      | some c =>
        if c.2.dim_range.overlaps_with dim_range then try_snap c.2.perpendicular_dim
        else none
  match firstTry with
  | some v => (some v, last_snapped)
  | none =>
    match scanCands try_snap dim_range snap_candidates 0 with
    | some (i, v) => (some v, some i)
    | none => (none, none)

/-- The `snap_move` helper of `calc_new_dimensions`. -/
def snap_move (snap_threshold pos edge : ℤ) : Option ℤ :=
  if |pos - edge| < snap_threshold then some edge else none

/-- The `snap_resize_upper` helper of `calc_new_dimensions`. -/
def snap_resize_upper (snap_threshold lower_pos upper_pos edge min_dim : ℤ) : Option ℤ :=
  (snap_move snap_threshold upper_pos edge).bind fun e =>
    if e - lower_pos < min_dim then none else some e

/-- The `snap_resize_lower` helper of `calc_new_dimensions`. -/
def snap_resize_lower (snap_threshold lower_pos upper_pos edge min_dim : ℤ) : Option ℤ :=
  (snap_move snap_threshold lower_pos edge).bind fun e =>
    if upper_pos - e < min_dim then none else some e

/-- The `calc_new_dimensions` helper of `win_drag_update`, for one axis.
`start_pos`/`start_size` are the starting rectangle's position and size in
the axis, `dim_range` is the perpendicular extent of the previous display
rectangle, and `prev_display_size` its size in the axis.  Returns the new
position and size, and the updated `last_snapped` state. -/
def calc_new_dimensions (action : WindowDragAction1D) (start_pos start_size : ℤ)
    (dim_range : DimRange) (prev_display_size : ℤ)
    (delta win_min_size area_dim snap_margin snap_threshold : ℤ)
    (snap_candidates : List (ℕ × SnapSegment)) (last_snapped : Option ℕ) :
    (ℤ × ℤ) × Option ℕ :=
  match action with
  | .none => ((start_pos, start_size), last_snapped)
  | .moveWindow =>
    let target_pos := start_pos + delta
    let try_snap := fun pos_to_snap => snap_move snap_threshold target_pos pos_to_snap
    let areaSnap :=
      (try_snap (0 + snap_margin)).orElse fun _ =>
        try_snap (area_dim - snap_margin - prev_display_size)
    match areaSnap with
    | some v => ((v, start_size), none)
    | none =>
      match snap_dimension try_snap dim_range snap_candidates last_snapped with
      | (some v, last') => ((v, start_size), last')
      | (none, last') => ((target_pos, start_size), last')
  | .resizeLower =>
    let target_pos := start_pos + delta
    let try_snap := fun pos_to_snap =>
      snap_resize_lower snap_threshold target_pos (start_pos + start_size) pos_to_snap
        win_min_size
    let areaSnap := try_snap (0 + snap_margin)
    let posLast : ℤ × Option ℕ :=
      match areaSnap with
      | some v => (v, none)
      | none =>
        match snap_dimension try_snap dim_range snap_candidates last_snapped with
        | (some v, last') => (v, last')
        | (none, last') =>
          (start_pos + start_size - max (start_size - delta) win_min_size, last')
    ((posLast.1, start_size + start_pos - posLast.1), posLast.2)
  | .resizeUpper =>
    let target_pos := start_pos + start_size + delta
    let try_snap := fun pos_to_snap =>
      snap_resize_upper snap_threshold start_pos target_pos pos_to_snap win_min_size
    let areaSnap := try_snap (area_dim - snap_margin)
    let sizeLast : ℤ × Option ℕ :=
      match areaSnap with
      | some v => (v - start_pos, none)
      | none =>
        match snap_dimension try_snap dim_range snap_candidates last_snapped with
        | (some v, last') => (v - start_pos, last')
        | (none, last') => (max (start_size + delta) win_min_size, last')
    ((start_pos, sizeLast.1), sizeLast.2)

/-- The body of `win_drag_update` computing the new rectangle for the
dragged window from the drag's starting rectangle, the cumulative offset
and the previous display rectangle, together with the updated
`last_snapped` markers for both axes. -/
def drag_new_rect (s₁ : WindowingState) (f : ℚ) (off : ℚ × ℚ) (d : DraggingState)
    (prev_rect : RectZ) (win : WindowState) : RectZ × (Option ℕ × Option ℕ) :=
  let dx := rrnd (off.1 * f)
  let dy := rrnd (off.2 * f)
  let border_thickness := s₁.frame_metrics.border_thickness
  let title_bar_height := s₁.frame_metrics.title_bar_height
  let area_size : SizeZ := ⟨rtrunc (s₁.area_size.1 * f), rtrunc (s₁.area_size.2 * f)⟩
  let min_w := rrnd ((border_thickness * 2 + win.min_size.w) * f)
  let min_h := rrnd ((border_thickness * 2 + title_bar_height + win.min_size.h) * f)
  let snap_threshold := rrnd (12 * f)
  let snap_margin := rrnd (8 * f)
  let rx := calc_new_dimensions d.dragging_hit_test.to_drag_action_x
    d.starting_rect.x d.starting_rect.w prev_rect.range_v prev_rect.w dx min_w
    area_size.w snap_margin snap_threshold d.snap_candidates_x d.last_snapped_x
  let ry := calc_new_dimensions d.dragging_hit_test.to_drag_action_y
    d.starting_rect.y d.starting_rect.h prev_rect.range_h prev_rect.h dy min_h
    area_size.h snap_margin snap_threshold d.snap_candidates_y d.last_snapped_y
  (⟨rx.1.1, ry.1.1, rx.1.2, ry.1.2⟩, (rx.2, ry.2))

/-- `WindowingState::win_drag_update`.  (The slot lookup after
`bring_to_top` is `unreachable!()` in Rust when the slot is dead; the
model returns `(s₁, false)` there, a branch that cannot be reached since
the display rectangle was just found.) -/
def win_drag_update (s : WindowingState) (offset : ℚ × ℚ) : WindowingState × Bool :=
  match s.maybe_dragging_window with
  | none => (s, false)
  | some d =>
    match s.win_display_rect_int d.win_id with
    | none => (s.win_drag_end true, false)
    | some prev_rect =>
      let f := s.hidpi_factor
      let s₁ := s.bring_to_top d.win_id
      match s₁.getWin d.win_id with
      | none => (s₁, false)
      | some win =>
        let res := drag_new_rect s₁ f offset d prev_rect win
        let d' := { d with last_snapped_x := res.2.1, last_snapped_y := res.2.2 }
        let s₂ := { s₁ with maybe_dragging_window := some d' }
        (s₂.set_win_normal_rect_int d.win_id res.1, true)

/-- `WindowingState::current_dragging_win`. -/
def current_dragging_win (s : WindowingState) : Option (ℕ × HitTest) :=
  s.maybe_dragging_window.map fun d => (d.win_id, d.dragging_hit_test)

end WindowingState

open WindowingState in
/-- States reachable from `WindowingState::new` through the mutating
operations of the engine.  Arguments carry the side conditions under which
the corresponding Rust method does not panic on an out-of-range index
(indices are otherwise total in the model). -/
inductive Reachable : WindowingState → Prop where
  | init : Reachable WindowingState.new
  | step_next_id {s : WindowingState} : Reachable s → Reachable s.next_id.1
  | step_ensure_init {s : WindowingState} {w : ℕ} {ini : WindowInitialState} :
      Reachable s → w < s.window_states.length → Reachable (s.ensure_init w ini)
  | step_set_needed {s : WindowingState} {w : ℕ} {b : Bool} :
      Reachable s → w < s.window_states.length → Reachable (s.set_needed w b)
  | step_set_all_needed {s : WindowingState} {b : Bool} :
      Reachable s → Reachable (s.set_all_needed b)
  | step_sweep_unneeded {s : WindowingState} : Reachable s → Reachable s.sweep_unneeded
  | step_set_win_hidden {s : WindowingState} {w : ℕ} {b : Bool} :
      Reachable s → w < s.window_states.length → Reachable (s.set_win_hidden w b)
  | step_set_win_collapsed {s : WindowingState} {w : ℕ} {b : Bool} :
      Reachable s → w < s.window_states.length → Reachable (s.set_win_collapsed w b)
  | step_set_win_min_size {s : WindowingState} {w : ℕ} {m : SizeQ} :
      Reachable s → w < s.window_states.length → Reachable (s.set_win_min_size w m)
  | step_set_win_normal_rect {s : WindowingState} {w : ℕ} {r : RectQ} :
      Reachable s → w < s.window_states.length → Reachable (s.set_win_normal_rect w r)
  | step_set_win_normal_rect_int {s : WindowingState} {w : ℕ} {r : RectZ} :
      Reachable s → w < s.window_states.length → Reachable (s.set_win_normal_rect_int w r)
  | step_set_dimensions {s : WindowingState} {a : ℚ × ℚ} {f : ℚ} :
      Reachable s → Reachable (s.set_dimensions a f)
  | step_ensure_all_win_in_area {s : WindowingState} :
      Reachable s → Reachable s.ensure_all_win_in_area
  | step_bring_to_top {s : WindowingState} {w : ℕ} :
      Reachable s → s.bottom_to_top_list ≠ [] → w < s.window_states.length →
      Reachable (s.bring_to_top w)
  | step_win_drag_start {s : WindowingState} {w : ℕ} {ht : HitTest} :
      Reachable s → w < s.window_states.length → Reachable (s.win_drag_start w ht).1
  | step_win_drag_end {s : WindowingState} {ab : Bool} :
      Reachable s → Reachable (s.win_drag_end ab)
  | step_win_drag_update {s : WindowingState} {off : ℚ × ℚ} :
      Reachable s → Reachable (s.win_drag_update off).1

/-- A concrete two-window state with an active drag on window 0 (started
on the title bar and moved by (5, 5) from its (100, 100) starting
position); window 1 sits at (400, 100). -/
def exampleTwoWinDragged : WindowingState :=
  ((((WindowingState.new.next_id.1.ensure_init 0
      ⟨(100, 100), some (100, 100), none, false⟩).next_id.1.ensure_init 1
        ⟨(100, 100), some (400, 100), none, false⟩).win_drag_start 0
          HitTest.titleBarOrDragArea).1.win_drag_update (5, 5)).1

/-- A concrete one-window state with an active left-border resize drag on
window 0. -/
def exampleResizeDrag : WindowingState :=
  ((WindowingState.new.next_id.1.ensure_init 0
    ⟨(100, 100), some (100, 100), none, false⟩).win_drag_start 0
      HitTest.leftBorder).1

/-- The drag session installed in `exampleResizeDrag`. -/
def exampleResizeDragState : DraggingState :=
  ⟨0, HitTest.leftBorder, ⟨100, 100, 158, 127⟩, [], none, [], none⟩

/-- The window record of window 0 in `exampleResizeDrag`. -/
def exampleResizeWin : WindowState :=
  ⟨⟨100, 100, 158, 127⟩, ⟨150, 50⟩, false, false, true, Anchor.none, Anchor.none⟩

/-- The z-order invariant: `window_z_orders` and `bottom_to_top_list` are
mutually inverse permutations over the slot indices, so
`bottom_to_top_list[window_z_orders[w]] = w` for every slot `w`. -/
def ZInv (s : WindowingState) : Prop :=
  s.window_z_orders.length = s.window_states.length ∧
  s.bottom_to_top_list.length = s.window_states.length ∧
  (∀ w, w < s.window_states.length →
    ∃ z, s.window_z_orders[w]? = some z ∧ z < s.window_states.length ∧
      s.bottom_to_top_list[z]? = some w) ∧
  (∀ p, p < s.window_states.length →
    ∃ u, s.bottom_to_top_list[p]? = some u ∧ u < s.window_states.length ∧
      s.window_z_orders[u]? = some p)

/-! ### Basic lemmas -/

theorem rrnd_intCast (z : ℤ) : rrnd (z : ℚ) = z := by
  unfold rrnd
  split
  · rw [Int.floor_int_add]
    norm_num
  · have h : (z : ℚ) - 1 / 2 = -(1 / 2) + z := by ring
    rw [h, Int.ceil_add_int]
    norm_num

theorem rrnd_div_mul {f : ℚ} (r : ℤ) (hf : f ≠ 0) : rrnd ((r : ℚ) / f * f) = r := by
  rw [div_mul_cancel₀ _ hf, rrnd_intCast]

namespace WindowingState

theorem getWin_some_lt {s : WindowingState} {w : ℕ} {win : WindowState}
    (h : s.getWin w = some win) : w < s.window_states.length := by
  unfold getWin at h
  rcases hg : s.window_states.get? w with _ | v
  · rw [hg] at h
    simp [Option.join] at h
  · exact (List.get?_eq_some.mp hg).1

theorem getWin_eq_getElem? {s : WindowingState} {w : ℕ} :
    s.getWin w = (s.window_states[w]?).join := by
  unfold getWin
  rw [List.get?_eq_getElem?]

/-! ### C10: flag and geometry queries on an absent (freed or
never-initialized) slot -/

/-- C10: for a `WinId` whose in-range slot is absent (freed by the sweep or
allocated but never initialized), `win_is_hidden` answers `true` while
`win_is_collapsed` answers `false`, and both `win_normal_rect` and
`win_display_rect` return `None`. -/
theorem absent_slot_query_defaults (s : WindowingState) (w : ℕ)
    (hlt : w < s.window_states.length) (habs : s.getWin w = none) :
    s.win_is_hidden w = true ∧ s.win_is_collapsed w = false ∧
      s.win_normal_rect w = none ∧ s.win_display_rect w = none := by
  refine ⟨?_, ?_, ?_, ?_⟩ <;>
    simp [win_is_hidden, win_is_collapsed, win_normal_rect, win_display_rect, habs]

/-- Witness for C10 at the state with one allocated, never-initialized
slot. -/
theorem absent_slot_query_defaults_witness :
    0 < WindowingState.new.next_id.1.window_states.length ∧
      WindowingState.new.next_id.1.getWin 0 = none ∧
      (WindowingState.new.next_id.1.win_is_hidden 0 = true ∧
        WindowingState.new.next_id.1.win_is_collapsed 0 = false ∧
        WindowingState.new.next_id.1.win_normal_rect 0 = none ∧
        WindowingState.new.next_id.1.win_display_rect 0 = none) :=
  ⟨by decide, by decide,
    absent_slot_query_defaults WindowingState.new.next_id.1 0 (by decide) (by decide)⟩

theorem getWin_eq_some_iff {s : WindowingState} {w : ℕ} {win : WindowState} :
    s.getWin w = some win ↔ s.window_states[w]? = some (some win) := by
  unfold getWin
  rw [List.get?_eq_getElem?]
  cases hx : s.window_states[w]? with
  | none => simp [Option.join]
  | some v => cases v <;> simp [Option.join]

theorem getWin_set_self {s : WindowingState} {w : ℕ} (hlt : w < s.window_states.length)
    (l : List (Option WindowState)) (v : WindowState)
    (hl : l = s.window_states.set w (some v)) : (l.get? w).join = some v := by
  subst hl
  rw [List.get?_eq_getElem?, List.getElem?_set_self (by simpa using hlt)]
  rfl

/-! ### C9: display rectangle of a collapsed window -/

/-- C9: for a live, non-hidden window: when collapsed, `win_display_rect`
is anchored at the pixel-rounded top-left of the normal rect with width
`collapsed_win_width` and height `title_bar_height + 2 × border_thickness`;
`win_normal_rect` does not depend on the collapsed flag; when not
collapsed, `win_display_rect` coincides with `win_normal_rect`. -/
theorem display_rect_collapsed_spec (s : WindowingState) (w : ℕ) (win : WindowState)
    (h : s.getWin w = some win) (hhid : win.is_hidden = false) :
    (win.is_collapsed = true →
      ∃ nr, s.win_normal_rect w = some nr ∧
        s.win_display_rect w = some
          { x := nr.x, y := nr.y
            w := s.frame_metrics.collapsed_win_width
            h := s.frame_metrics.title_bar_height
                   + s.frame_metrics.border_thickness * 2 }) ∧
    (win.is_collapsed = false → s.win_display_rect w = s.win_normal_rect w) ∧
    (∀ b : Bool,
      win_normal_rect
        { s with window_states :=
            s.window_states.set w (some { win with is_collapsed := b }) } w
        = s.win_normal_rect w) := by
  refine ⟨?_, ?_, ?_⟩
  · intro hcol
    refine ⟨⟨(rrnd (win.rect.x * s.hidpi_factor) : ℚ) / s.hidpi_factor,
             (rrnd (win.rect.y * s.hidpi_factor) : ℚ) / s.hidpi_factor,
             (rrnd (win.rect.w * s.hidpi_factor) : ℚ) / s.hidpi_factor,
             (rrnd (win.rect.h * s.hidpi_factor) : ℚ) / s.hidpi_factor⟩, ?_, ?_⟩
    · simp [win_normal_rect, h]
    · simp [win_display_rect, h, hhid, hcol]
  · intro hcol
    simp [win_display_rect, h, hhid, hcol]
  · intro b
    have hlt : w < s.window_states.length := getWin_some_lt h
    have h' : s.window_states[w]? = some (some win) := getWin_eq_some_iff.mp h
    simp [win_normal_rect, getWin, List.get?_eq_getElem?,
      List.getElem?_set_self (by simpa using hlt), h']

/-- Witness for C9: two windows in a concrete state, one collapsed and one
not. -/
theorem display_rect_collapsed_spec_witness :
    ((WindowingState.new.next_id.1.ensure_init 0
        ⟨(100, 100), some (100, 100), none, true⟩).getWin 0).isSome = true ∧
      (((WindowingState.new.next_id.1.ensure_init 0
          ⟨(100, 100), some (100, 100), none, true⟩).getWin 0).getD
            ⟨⟨0, 0, 0, 0⟩, ⟨0, 0⟩, false, false, false, Anchor.none, Anchor.none⟩).is_hidden
        = false ∧
      (WindowingState.new.next_id.1.ensure_init 0
        ⟨(100, 100), some (100, 100), none, true⟩).win_display_rect 0
        = some ⟨100, 100, 158, 26⟩ := by
  have h := display_rect_collapsed_spec
    (WindowingState.new.next_id.1.ensure_init 0 ⟨(100, 100), some (100, 100), none, true⟩)
    0 (((WindowingState.new.next_id.1.ensure_init 0
        ⟨(100, 100), some (100, 100), none, true⟩).getWin 0).getD
          ⟨⟨0, 0, 0, 0⟩, ⟨0, 0⟩, false, false, false, Anchor.none, Anchor.none⟩)
    (by decide) (by decide)
  rcases (h.1 (by decide)) with ⟨nr, hnr, hdisp⟩
  refine ⟨by decide, by decide, ?_⟩
  rw [hdisp]
  have hnr' : nr = ⟨100, 100, 158, 127⟩ := by
    have : some nr = some (⟨100, 100, 158, 127⟩ : RectQ) := by
      rw [← hnr]; decide
    exact Option.some.inj this
  rw [hnr']
  decide

theorem getWin_congr {s s' : WindowingState} (hw : s'.window_states = s.window_states)
    (w : ℕ) : s'.getWin w = s.getWin w := by
  unfold getWin
  rw [hw]

theorem getWin_set_eq {s : WindowingState} {id : ℕ} (hlt : id < s.window_states.length)
    (v : WindowState) :
    ({ s with window_states := s.window_states.set id (some v) } :
      WindowingState).getWin id = some v := by
  unfold getWin
  rw [List.get?_eq_getElem?]
  show ((s.window_states.set id (some v))[id]?).join = some v
  rw [List.getElem?_set_self (by simpa using hlt)]
  rfl

theorem getWin_set_ne {s : WindowingState} {id w : ℕ} (hne : w ≠ id)
    (v : Option WindowState) :
    ({ s with window_states := s.window_states.set id v } :
      WindowingState).getWin w = s.getWin w := by
  unfold getWin
  rw [List.get?_eq_getElem?]
  show ((s.window_states.set id v)[w]?).join = _
  rw [List.getElem?_set_ne (fun h => hne h.symm), List.get?_eq_getElem?]

/-- Effect of `set_win_normal_rect_int` on an arbitrary live slot: only the
`rect` of the targeted window can change. -/
theorem set_win_normal_rect_int_getWin (s : WindowingState) (id : ℕ) (r : RectZ)
    {w : ℕ} {win : WindowState} (h : s.getWin w = some win) :
    ∃ win', (s.set_win_normal_rect_int id r).getWin w = some win' ∧
      win'.min_size = win.min_size ∧ win'.is_hidden = win.is_hidden ∧
      win'.is_collapsed = win.is_collapsed ∧ win'.is_needed = win.is_needed ∧
      win'.anchor_x = win.anchor_x ∧ win'.anchor_y = win.anchor_y ∧
      (w ≠ id → win' = win) := by
  unfold set_win_normal_rect_int
  cases hg : s.getWin id with
  | none => exact ⟨win, h, rfl, rfl, rfl, rfl, rfl, rfl, fun _ => rfl⟩
  | some wid =>
    by_cases hw : w = id
    · subst hw
      have : wid = win := by rw [h] at hg; exact (Option.some.inj hg).symm
      subst this
      refine ⟨_, getWin_set_eq (getWin_some_lt h) _, rfl, rfl, rfl, rfl, rfl, rfl,
        fun hne => absurd rfl hne⟩
    · exact ⟨win, (getWin_set_ne hw _).trans h, rfl, rfl, rfl, rfl, rfl, rfl,
        fun _ => rfl⟩

/-- Effect of `win_drag_end` on an arbitrary live slot: the slot stays
live and its `rect` and anchors are the only fields that can change. -/
theorem win_drag_end_getWin (s : WindowingState) (ab : Bool) {w : ℕ} {win : WindowState}
    (h : s.getWin w = some win) :
    ∃ win', (s.win_drag_end ab).getWin w = some win' ∧
      win'.min_size = win.min_size ∧ win'.is_hidden = win.is_hidden ∧
      win'.is_collapsed = win.is_collapsed ∧ win'.is_needed = win.is_needed := by
  unfold win_drag_end
  cases hd : s.maybe_dragging_window with
  | none => exact ⟨win, h, rfl, rfl, rfl, rfl⟩
  | some d =>
    have h₀ : ({ s with maybe_dragging_window := none } : WindowingState).getWin w
        = some win := h
    cases ab with
    | true =>
      simp only [if_true]
      obtain ⟨win', hw', hmin, hhid, hcol, hneed, _, _, _⟩ :=
        set_win_normal_rect_int_getWin _ d.win_id d.starting_rect h₀
      exact ⟨win', hw', hmin, hhid, hcol, hneed⟩
    | false =>
      simp only [if_false, Bool.false_eq_true]
      cases hnr : ({ s with maybe_dragging_window := none } :
          WindowingState).win_normal_rect_int d.win_id with
      | none => exact ⟨win, h₀, rfl, rfl, rfl, rfl⟩
      | some rect =>
        cases hdr : ({ s with maybe_dragging_window := none } :
            WindowingState).win_display_rect_int d.win_id with
        | none => exact ⟨win, h₀, rfl, rfl, rfl, rfl⟩
        | some dr =>
          cases hg : ({ s with maybe_dragging_window := none } :
              WindowingState).getWin d.win_id with
          | none =>
            obtain ⟨win', hw', hmin, hhid, hcol, hneed, _, _, _⟩ :=
              set_win_normal_rect_int_getWin _ d.win_id rect h₀
            exact ⟨win', hw', hmin, hhid, hcol, hneed⟩
          | some wid =>
            by_cases hw : w = d.win_id
            · have hwid : wid = win := by
                rw [hw] at h₀
                rw [h₀] at hg
                exact (Option.some.inj hg).symm
              rw [hw]
              have hset := getWin_set_eq
                (s := { s with maybe_dragging_window := none })
                (getWin_some_lt hg) { wid with
                  anchor_x := check_snap_anchor rect.x dr.size.w
                    (rtrunc (s.area_size.1 * s.hidpi_factor)) (rrnd (8 * s.hidpi_factor))
                  anchor_y := check_snap_anchor rect.y dr.size.h
                    (rtrunc (s.area_size.2 * s.hidpi_factor)) (rrnd (8 * s.hidpi_factor)) }
              obtain ⟨win', hw', hmin, hhid, hcol, hneed, _, _, _⟩ :=
                set_win_normal_rect_int_getWin _ d.win_id rect hset
              refine ⟨win', hw', ?_, ?_, ?_, ?_⟩ <;>
                simp [hmin, hhid, hcol, hneed, hwid]
            · obtain ⟨win', hw', hmin, hhid, hcol, hneed, _, _, _⟩ :=
                set_win_normal_rect_int_getWin _ d.win_id rect
                  ((getWin_set_ne (s := { s with maybe_dragging_window := none })
                    hw _).trans h₀)
              exact ⟨win', hw', hmin, hhid, hcol, hneed⟩

theorem win_is_collapsed_of_getWin {s : WindowingState} {w : ℕ} {win : WindowState}
    (h : s.getWin w = some win) : s.win_is_collapsed w = win.is_collapsed := by
  unfold win_is_collapsed
  rw [h]
  rfl

/-! ### C8: resize of a collapsed window is refused -/

/-- C8: for a live collapsed window and a border/corner hit test,
`win_drag_start` returns `false`; when no drag was active beforehand the
whole state is returned unchanged. -/
theorem collapsed_resize_refused (s : WindowingState) (w : ℕ) (win : WindowState)
    (ht : HitTest) (h : s.getWin w = some win) (hcol : win.is_collapsed = true)
    (hb : ht.is_border_or_corner = true) :
    (s.win_drag_start w ht).2 = false ∧
      (s.maybe_dragging_window = none → s.win_drag_start w ht = (s, false)) := by
  have fresh_refuse : ∀ s' : WindowingState, s'.win_is_collapsed w = true →
      win_drag_start_fresh s' w ht = (s', false) := by
    intro s' hc
    unfold win_drag_start_fresh
    rw [hb, hc]
    simp
  constructor
  · unfold win_drag_start
    cases hd : s.maybe_dragging_window with
    | none =>
      rw [fresh_refuse s (by rw [win_is_collapsed_of_getWin h, hcol])]
    | some d =>
      by_cases hdw : d.win_id = w
      · simp only [hdw, if_true]
        obtain ⟨win', hw', _, _, hcol', _⟩ := win_drag_end_getWin s false h
        rw [fresh_refuse _ (by rw [win_is_collapsed_of_getWin hw', hcol', hcol])]
      · simp only [hdw, if_false]
        obtain ⟨win', hw', _, _, hcol', _⟩ := win_drag_end_getWin s true h
        rw [fresh_refuse _ (by rw [win_is_collapsed_of_getWin hw', hcol', hcol])]
  · intro hnone
    unfold win_drag_start
    rw [hnone]
    exact fresh_refuse s (by rw [win_is_collapsed_of_getWin h, hcol])

/-- Witness for C8 at a concrete state with one collapsed window. -/
theorem collapsed_resize_refused_witness :
    ((WindowingState.new.next_id.1.ensure_init 0
        ⟨(100, 100), some (100, 100), none, true⟩).getWin 0).isSome = true ∧
      ((WindowingState.new.next_id.1.ensure_init 0
          ⟨(100, 100), some (100, 100), none, true⟩).win_drag_start 0
            HitTest.leftBorder).2 = false ∧
      ((WindowingState.new.next_id.1.ensure_init 0
          ⟨(100, 100), some (100, 100), none, true⟩).win_drag_start 0
            HitTest.leftBorder)
        = (WindowingState.new.next_id.1.ensure_init 0
            ⟨(100, 100), some (100, 100), none, true⟩, false) := by
  have h := collapsed_resize_refused
    (WindowingState.new.next_id.1.ensure_init 0 ⟨(100, 100), some (100, 100), none, true⟩)
    0
    (((WindowingState.new.next_id.1.ensure_init 0
        ⟨(100, 100), some (100, 100), none, true⟩).getWin 0).getD
          ⟨⟨0, 0, 0, 0⟩, ⟨0, 0⟩, false, false, false, Anchor.none, Anchor.none⟩)
    HitTest.leftBorder (by decide) (by decide) (by decide)
  exact ⟨by decide, h.1, h.2 (by decide)⟩

theorem getWin_map_window_states {s : WindowingState} {f : WindowState → WindowState}
    (w : ℕ) :
    ({ s with window_states := s.window_states.map (Option.map f) } :
      WindowingState).getWin w = (s.getWin w).map f := by
  unfold getWin
  rw [List.get?_eq_getElem?]
  show ((s.window_states.map (Option.map f))[w]?).join = _
  rw [List.getElem?_map, List.get?_eq_getElem?]
  cases s.window_states[w]? with
  | none => rfl
  | some v => cases v <;> rfl

/-! ### C6: `ensure_all_win_in_area` clamps position only -/

/-- Counterexample to C6 as stated: a visible, non-collapsed window whose
width (1008) and height (727) exceed the 800 × 600 area bounds plus the
border allowance keeps exactly that width and height across
`ensure_all_win_in_area` — the size is never capped, only the position is
clamped. -/
theorem ensure_all_win_no_size_cap_counterexample :
    (((WindowingState.new.set_dimensions (800, 600) 1).next_id.1.ensure_init 0
        ⟨(1000, 700), some (100, 100), none, false⟩).getWin 0).map (fun v => v.rect)
      = some ⟨100, 100, 1008, 727⟩ ∧
    (((WindowingState.new.set_dimensions (800, 600) 1).next_id.1.ensure_init 0
        ⟨(1000, 700), some (100, 100), none, false⟩).getWin 0).map
          (fun v => v.is_collapsed) = some false ∧
    ((WindowingState.new.set_dimensions (800, 600) 1).next_id.1.ensure_init 0
        ⟨(1000, 700), some (100, 100), none, false⟩).area_size = (800, 600) ∧
    ((WindowingState.new.set_dimensions (800, 600) 1).next_id.1.ensure_init 0
        ⟨(1000, 700), some (100, 100), none, false⟩).frame_metrics.border_thickness
      = 4 ∧
    (1008 : ℚ) > 800 + 2 * 4 ∧ (727 : ℚ) > 600 + 2 * 4 ∧
    ((((WindowingState.new.set_dimensions (800, 600) 1).next_id.1.ensure_init 0
        ⟨(1000, 700), some (100, 100), none, false⟩).ensure_all_win_in_area).getWin
          0).map (fun v => v.rect) = some ⟨100, 100, 1008, 727⟩ := by
  refine ⟨?_, ?_, ?_, ?_, ?_, ?_, ?_⟩ <;> decide

/-- C6 (amended): `ensure_all_win_in_area` can modify only the position
(`x`, `y`) of a visible window — it never changes any window's size,
flags, minimum size or anchors — and a hidden window is left entirely
unchanged. -/
theorem ensure_all_win_position_only (s : WindowingState) (w : ℕ) (win : WindowState)
    (h : s.getWin w = some win) :
    ∃ win', s.ensure_all_win_in_area.getWin w = some win' ∧
      win'.rect.w = win.rect.w ∧ win'.rect.h = win.rect.h ∧
      win'.min_size = win.min_size ∧ win'.is_hidden = win.is_hidden ∧
      win'.is_collapsed = win.is_collapsed ∧ win'.is_needed = win.is_needed ∧
      win'.anchor_x = win.anchor_x ∧ win'.anchor_y = win.anchor_y ∧
      (win.is_hidden = true → win' = win) := by
  have hmap : s.ensure_all_win_in_area.getWin w
      = some (clampWin s.area_size s.frame_metrics win) := by
    unfold ensure_all_win_in_area
    rw [getWin_map_window_states, h]
    rfl
  refine ⟨clampWin s.area_size s.frame_metrics win, hmap, ?_⟩
  by_cases hh : win.is_hidden
  · rw [clampWin, if_pos hh]
    exact ⟨rfl, rfl, rfl, rfl, rfl, rfl, rfl, rfl, fun _ => rfl⟩
  · rw [clampWin, if_neg hh]
    refine ⟨rfl, rfl, rfl, rfl, rfl, rfl, rfl, rfl, fun hcontra => absurd hcontra hh⟩

/-- Witness for C6 (amended) at a concrete state. -/
theorem ensure_all_win_position_only_witness :
    (((WindowingState.new.set_dimensions (800, 600) 1).next_id.1.ensure_init 0
        ⟨(1000, 700), some (100, 100), none, false⟩).getWin 0).isSome = true ∧
    ∃ win', ((WindowingState.new.set_dimensions (800, 600) 1).next_id.1.ensure_init 0
        ⟨(1000, 700), some (100, 100), none, false⟩).ensure_all_win_in_area.getWin 0
          = some win' ∧
      win'.rect.w = ((((WindowingState.new.set_dimensions (800, 600) 1).next_id.1.ensure_init
        0 ⟨(1000, 700), some (100, 100), none, false⟩).getWin 0).getD
          ⟨⟨0, 0, 0, 0⟩, ⟨0, 0⟩, false, false, false, Anchor.none, Anchor.none⟩).rect.w := by
  refine ⟨by decide, ?_⟩
  obtain ⟨win', hw', hww, _⟩ := ensure_all_win_position_only
    ((WindowingState.new.set_dimensions (800, 600) 1).next_id.1.ensure_init 0
      ⟨(1000, 700), some (100, 100), none, false⟩) 0
    ((((WindowingState.new.set_dimensions (800, 600) 1).next_id.1.ensure_init 0
        ⟨(1000, 700), some (100, 100), none, false⟩).getWin 0).getD
          ⟨⟨0, 0, 0, 0⟩, ⟨0, 0⟩, false, false, false, Anchor.none, Anchor.none⟩)
    (by decide)
  exact ⟨win', hw', hww⟩

/-! ### C2: `next_id` and the z-order position of the new slot -/

/-- Counterexample to C2 as stated: after allocating a second window in a
fresh state, the new `WinId` (1) has z-rank 1, not 0, and it *is* the
topmost window — `next_id` pushes to the top end of `bottom_to_top_list`,
not the bottom. -/
theorem next_id_z_counterexample :
    WindowingState.new.next_id.1.next_id.2 = 1 ∧
      WindowingState.new.next_id.1.next_id.1.topmost_win = some 1 ∧
      WindowingState.new.next_id.1.next_id.1.win_z_order 1 = 1 ∧
      WindowingState.new.next_id.1.next_id.1.win_z_order 1 ≠ 0 ∧
      WindowingState.new.next_id.1.next_id.1.bottom_to_top_list = [0, 1] := by
  refine ⟨?_, ?_, ?_, ?_, ?_⟩ <;> decide

/-- C2 (amended): `next_id` allocates a new empty slot at the end of the
slot array and appends the new `WinId` at the *top* end of
`bottom_to_top_list` (highest z-rank), so the new id becomes the topmost
window. -/
theorem next_id_z_spec (s : WindowingState) :
    s.next_id.2 = s.window_states.length ∧
      s.next_id.1.window_states = s.window_states ++ [none] ∧
      s.next_id.1.window_z_orders = s.window_z_orders ++ [s.window_states.length] ∧
      s.next_id.1.bottom_to_top_list = s.bottom_to_top_list ++ [s.next_id.2] ∧
      s.next_id.1.topmost_win = some s.next_id.2 := by
  refine ⟨rfl, rfl, rfl, rfl, ?_⟩
  show (s.bottom_to_top_list ++ [s.window_states.length]).getLast? = _
  rw [List.getLast?_concat]
  rfl

/-! ### C5: collapse round-trip -/

theorem recompute_noop_no_anchor (s : WindowingState) (w : ℕ) (win : WindowState)
    (h : s.getWin w = some win) (hax : win.anchor_x = Anchor.none)
    (hay : win.anchor_y = Anchor.none) : s.win_recompute_snapping_rect w = s := by
  unfold win_recompute_snapping_rect
  rw [h]
  by_cases hh : win.is_hidden
  · simp [hh]
  · simp [hh, hax, hay]

/-- Counterexample to C5 as stated: a live window anchored to the area's
right edge (reached through an actual drag-to-edge-snap followed by a
committing drag end) has its stored `rect.x` changed from 16777000 to
16777050 by `set_win_collapsed(_, true)` — collapsing *does* mutate the
stored rect when the window carries an edge anchor, because the collapse
triggers `win_recompute_snapping_rect` with the collapsed display width. -/
theorem set_win_collapsed_mutates_rect_counterexample :
    (((((WindowingState.new.next_id.1.ensure_init 0
          ⟨(200, 100), some (100, 100), none, false⟩).win_drag_start 0
            HitTest.titleBarOrDragArea).1.win_drag_update
              (16776900, 0)).1.win_drag_end false).getWin 0).map
        (fun v => (v.rect.x, v.anchor_x)) = some (16777000, Anchor.upperEdge) ∧
    ((((((WindowingState.new.next_id.1.ensure_init 0
          ⟨(200, 100), some (100, 100), none, false⟩).win_drag_start 0
            HitTest.titleBarOrDragArea).1.win_drag_update
              (16776900, 0)).1.win_drag_end false).set_win_collapsed 0 true).getWin
        0).map (fun v => v.rect.x) = some 16777050 ∧
    (16777050 : ℚ) ≠ 16777000 := by
  refine ⟨?_, ?_, ?_⟩ <;> decide

/-- C5 (amended): for a live window carrying *no* edge anchors
(`anchor_x = anchor_y = None`), collapsing does not mutate the stored
rect — only the `is_collapsed` flag — and collapsing followed by
un-collapsing restores the normal rect exactly.  (For an anchored window
the rect is re-derived from the anchors on each toggle.) -/
theorem set_win_collapsed_no_anchor_roundtrip (s : WindowingState) (w : ℕ)
    (win : WindowState) (h : s.getWin w = some win) (hax : win.anchor_x = Anchor.none)
    (hay : win.anchor_y = Anchor.none) :
    ∃ win₁, (s.set_win_collapsed w true).getWin w = some win₁ ∧
      win₁.rect = win.rect ∧ win₁.is_collapsed = true ∧
      ∃ win₂, ((s.set_win_collapsed w true).set_win_collapsed w false).getWin w
          = some win₂ ∧ win₂.rect = win.rect ∧ win₂.is_collapsed = false := by
  have step : ∀ (s' : WindowingState) (v : WindowState) (b : Bool),
      s'.getWin w = some v → v.anchor_x = Anchor.none → v.anchor_y = Anchor.none →
      ∃ v', (s'.set_win_collapsed w b).getWin w = some v' ∧
        v'.rect = v.rect ∧ v'.is_collapsed = b ∧
        v'.anchor_x = Anchor.none ∧ v'.anchor_y = Anchor.none := by
    intro s' v b hv hvx hvy
    unfold set_win_collapsed
    rw [hv]
    dsimp only
    by_cases hb : v.is_collapsed = b
    · rw [if_pos hb]
      exact ⟨v, hv, rfl, hb, hvx, hvy⟩
    · rw [if_neg hb]
      have hset := getWin_set_eq (s := s') (getWin_some_lt hv)
        { v with is_collapsed := b }
      rw [recompute_noop_no_anchor _ w { v with is_collapsed := b } hset hvx hvy]
      exact ⟨{ v with is_collapsed := b }, hset, rfl, rfl, hvx, hvy⟩
  obtain ⟨win₁, h₁, hr₁, hc₁, hax₁, hay₁⟩ := step s win true h hax hay
  obtain ⟨win₂, h₂, hr₂, hc₂, _, _⟩ := step _ win₁ false h₁ hax₁ hay₁
  exact ⟨win₁, h₁, hr₁, hc₁, win₂, h₂, hr₂.trans hr₁, hc₂⟩

/-- Witness for C5 (amended) at a concrete un-anchored window. -/
theorem set_win_collapsed_no_anchor_roundtrip_witness :
    ((WindowingState.new.next_id.1.ensure_init 0
        ⟨(200, 100), some (100, 100), none, false⟩).getWin 0).isSome = true ∧
    ∃ win₁, ((WindowingState.new.next_id.1.ensure_init 0
        ⟨(200, 100), some (100, 100), none, false⟩).set_win_collapsed 0 true).getWin 0
          = some win₁ ∧
      win₁.rect = ⟨100, 100, 208, 127⟩ ∧ win₁.is_collapsed = true ∧
      ∃ win₂, (((WindowingState.new.next_id.1.ensure_init 0
          ⟨(200, 100), some (100, 100), none, false⟩).set_win_collapsed 0
            true).set_win_collapsed 0 false).getWin 0 = some win₂ ∧
        win₂.rect = ⟨100, 100, 208, 127⟩ ∧ win₂.is_collapsed = false := by
  refine ⟨by decide, ?_⟩
  have hrect : ((((WindowingState.new.next_id.1.ensure_init 0
      ⟨(200, 100), some (100, 100), none, false⟩).getWin 0).getD
        ⟨⟨0, 0, 0, 0⟩, ⟨0, 0⟩, false, false, false, Anchor.none, Anchor.none⟩)).rect
      = ⟨100, 100, 208, 127⟩ := by decide
  obtain ⟨win₁, h₁, hr₁, hc₁, win₂, h₂, hr₂, hc₂⟩ :=
    set_win_collapsed_no_anchor_roundtrip
      (WindowingState.new.next_id.1.ensure_init 0
        ⟨(200, 100), some (100, 100), none, false⟩) 0
      (((WindowingState.new.next_id.1.ensure_init 0
          ⟨(200, 100), some (100, 100), none, false⟩).getWin 0).getD
            ⟨⟨0, 0, 0, 0⟩, ⟨0, 0⟩, false, false, false, Anchor.none, Anchor.none⟩)
      (by decide) (by decide) (by decide)
  exact ⟨win₁, h₁, hr₁.trans hrect, hc₁, win₂, h₂, hr₂.trans hrect, hc₂⟩

/-! ### C1: starting a drag on a different window ends the old drag -/

theorem win_drag_start_fresh_window_states (s : WindowingState) (id : ℕ) (ht : HitTest) :
    (win_drag_start_fresh s id ht).1.window_states = s.window_states := by
  unfold win_drag_start_fresh
  split
  · rfl
  · split
    · rfl
    · split
      · rfl
      · rfl

theorem set_win_normal_rect_int_getWin_self (s : WindowingState) (id : ℕ) (r : RectZ)
    {win : WindowState} (h : s.getWin id = some win) :
    (s.set_win_normal_rect_int id r).getWin id
      = some { win with rect := rectIntToF s.hidpi_factor r } := by
  unfold set_win_normal_rect_int
  rw [h]
  dsimp only
  exact getWin_set_eq (getWin_some_lt h) _

/-- Counterexample to C1 as stated: with a drag active on window 0 (moved
by (5,5) from its (100,100) start), starting a drag on window 1 restores
window 0's rectangle to its pre-drag position (100,100) --- the outcome of
`win_drag_end(abort=true)` --- whereas committing (`win_drag_end(false)`)
would have left it at (105,105). -/
theorem drag_start_other_aborts_counterexample :
    ((exampleTwoWinDragged.win_drag_start 1 HitTest.titleBarOrDragArea).1.getWin 0).map
        (fun v => (v.rect.x, v.rect.y)) = some (100, 100) ∧
      ((exampleTwoWinDragged.win_drag_end false).getWin 0).map
        (fun v => (v.rect.x, v.rect.y)) = some (105, 105) ∧
      ((100 : ℚ), (100 : ℚ)) ≠ ((105 : ℚ), (105 : ℚ)) := by
  refine ⟨?_, ?_, ?_⟩ <;> decide

/-- C1 (amended): when a drag is active on window `A` and
`win_drag_start(B, ht)` is called with `B ≠ A`, the active drag on `A` is
first ended by *aborting* it --- `A`'s stored rectangle is reset to the
drag's starting rectangle, exactly as `win_drag_end(abort=true)` does ---
and never by committing it.  (Only when `B = A` is the previous drag
committed.) -/
theorem drag_start_other_window_aborts (s : WindowingState) (B : ℕ) (ht : HitTest)
    (A : ℕ) (hA : s.current_dragging_win.map Prod.fst = some A) (hne : B ≠ A) :
    ∃ d, s.maybe_dragging_window = some d ∧ d.win_id = A ∧
      (s.win_drag_start B ht).1.window_states = (s.win_drag_end true).window_states ∧
      ∀ win, s.getWin A = some win →
        (s.win_drag_start B ht).1.getWin A
          = some { win with rect := rectIntToF s.hidpi_factor d.starting_rect } := by
  obtain ⟨d, hd, hdA⟩ : ∃ d, s.maybe_dragging_window = some d ∧ d.win_id = A := by
    cases hmd : s.maybe_dragging_window with
    | none => rw [current_dragging_win, hmd] at hA; simp at hA
    | some d =>
      rw [current_dragging_win, hmd] at hA
      exact ⟨d, rfl, by simpa using hA⟩
  have hws : (s.win_drag_start B ht).1.window_states
      = (s.win_drag_end true).window_states := by
    unfold win_drag_start
    rw [hd]
    dsimp only
    rw [if_neg (fun hc => hne (hdA ▸ hc.symm))]
    exact win_drag_start_fresh_window_states _ B ht
  refine ⟨d, hd, hdA, hws, ?_⟩
  intro win hwin
  have h₀ : ({ s with maybe_dragging_window := none } : WindowingState).getWin A
      = some win := hwin
  have hend : (s.win_drag_end true).getWin A
      = some { win with rect := rectIntToF s.hidpi_factor d.starting_rect } := by
    unfold win_drag_end
    rw [hd]
    dsimp only [if_true]
    rw [hdA]
    exact set_win_normal_rect_int_getWin_self _ A d.starting_rect h₀
  exact (getWin_congr hws A).trans hend

/-- Witness for C1 (amended) at the concrete two-window state with an
active drag on window 0. -/
theorem drag_start_other_window_aborts_witness :
    exampleTwoWinDragged.current_dragging_win.map Prod.fst = some 0 ∧
      (1 : ℕ) ≠ 0 ∧
      ∃ d, exampleTwoWinDragged.maybe_dragging_window = some d ∧ d.win_id = 0 ∧
        (exampleTwoWinDragged.win_drag_start 1
            HitTest.titleBarOrDragArea).1.window_states
          = (exampleTwoWinDragged.win_drag_end true).window_states ∧
        ∀ win, exampleTwoWinDragged.getWin 0 = some win →
          (exampleTwoWinDragged.win_drag_start 1 HitTest.titleBarOrDragArea).1.getWin 0
            = some { win with
                rect := rectIntToF exampleTwoWinDragged.hidpi_factor d.starting_rect } :=
  ⟨by decide, by decide,
    drag_start_other_window_aborts exampleTwoWinDragged 1 HitTest.titleBarOrDragArea 0
      (by decide) (by decide)⟩

/-! ### C4: aborting a drag restores the pixel-rounded rectangle -/

theorem set_win_normal_rect_int_same (s : WindowingState) (id : ℕ) (r : RectZ) :
    (s.set_win_normal_rect_int id r).hidpi_factor = s.hidpi_factor ∧
      (s.set_win_normal_rect_int id r).area_size = s.area_size ∧
      (s.set_win_normal_rect_int id r).frame_metrics = s.frame_metrics ∧
      (s.set_win_normal_rect_int id r).maybe_dragging_window
        = s.maybe_dragging_window ∧
      (s.set_win_normal_rect_int id r).window_z_orders = s.window_z_orders ∧
      (s.set_win_normal_rect_int id r).bottom_to_top_list = s.bottom_to_top_list ∧
      (s.set_win_normal_rect_int id r).window_states.length
        = s.window_states.length := by
  unfold set_win_normal_rect_int
  cases s.getWin id <;> exact ⟨rfl, rfl, rfl, rfl, rfl, rfl, by simp [List.length_set]⟩

theorem win_normal_rect_int_congr {s s' : WindowingState} {w : ℕ}
    (hg : s'.getWin w = s.getWin w) (hf : s'.hidpi_factor = s.hidpi_factor) :
    s'.win_normal_rect_int w = s.win_normal_rect_int w := by
  unfold win_normal_rect_int
  rw [hg, hf]

theorem win_normal_rect_congr {s s' : WindowingState} {w : ℕ}
    (hg : s'.getWin w = s.getWin w) (hf : s'.hidpi_factor = s.hidpi_factor) :
    s'.win_normal_rect w = s.win_normal_rect w := by
  unfold win_normal_rect
  rw [hg, hf]

/-- A slot whose stored rect is an exact device-pixel grid point reads
back as exactly that grid rectangle. -/
theorem win_normal_rect_int_of_rectIntToF {s : WindowingState} {w : ℕ}
    {win : WindowState} {r : RectZ} (h : s.getWin w = some win)
    (hrect : win.rect = rectIntToF s.hidpi_factor r) (hf : s.hidpi_factor ≠ 0) :
    s.win_normal_rect_int w = some r := by
  unfold win_normal_rect_int
  rw [h]
  dsimp only [Option.map]
  cases r with
  | mk rx ry rw' rh =>
    rw [hrect]
    simp [rectIntToF, rrnd_div_mul _ hf]

/-- `win_normal_rect` is the device-pixel rectangle scaled back to
logical units. -/
theorem win_normal_rect_eq_int_scaled (s : WindowingState) (w : ℕ) :
    s.win_normal_rect w
      = (s.win_normal_rect_int w).map (rectIntToF s.hidpi_factor) := by
  unfold win_normal_rect win_normal_rect_int
  cases s.getWin w <;> rfl

/-- `set_win_normal_rect_int` does not touch other slots. -/
theorem set_win_normal_rect_int_getWin_ne (s : WindowingState) (id : ℕ) (r : RectZ)
    {w : ℕ} (hne : w ≠ id) :
    (s.set_win_normal_rect_int id r).getWin w = s.getWin w := by
  unfold set_win_normal_rect_int
  cases s.getWin id with
  | none => rfl
  | some win => exact getWin_set_ne hne _

/-- Committing a drag (`win_drag_end false`) never changes any window's
pixel-rounded rectangle: the dragged window's rect is merely re-aligned to
the device-pixel grid. -/
theorem win_drag_end_commit_normal_rect_int (s : WindowingState)
    (hf : s.hidpi_factor ≠ 0) (w : ℕ) :
    (s.win_drag_end false).win_normal_rect_int w = s.win_normal_rect_int w := by
  unfold win_drag_end
  cases hd : s.maybe_dragging_window with
  | none => rfl
  | some d =>
    dsimp only
    rw [if_neg (by simp)]
    cases hnr : ({ s with maybe_dragging_window := none } :
        WindowingState).win_normal_rect_int d.win_id with
    | none => exact win_normal_rect_int_congr rfl rfl
    | some rect =>
      cases hdr : ({ s with maybe_dragging_window := none } :
          WindowingState).win_display_rect_int d.win_id with
      | none => exact win_normal_rect_int_congr rfl rfl
      | some dr =>
        cases hg : ({ s with maybe_dragging_window := none } :
            WindowingState).getWin d.win_id with
        | none =>
          dsimp only
          have hid : ({ s with maybe_dragging_window := none } :
              WindowingState).set_win_normal_rect_int d.win_id rect
              = { s with maybe_dragging_window := none } := by
            unfold set_win_normal_rect_int
            rw [hg]
          rw [hid]
          exact win_normal_rect_int_congr rfl rfl
        | some win2 =>
          dsimp only
          have hset := getWin_set_eq (s := { s with maybe_dragging_window := none })
            (getWin_some_lt hg) { win2 with
              anchor_x := check_snap_anchor rect.x dr.size.w
                (rtrunc (s.area_size.1 * s.hidpi_factor)) (rrnd (8 * s.hidpi_factor))
              anchor_y := check_snap_anchor rect.y dr.size.h
                (rtrunc (s.area_size.2 * s.hidpi_factor)) (rrnd (8 * s.hidpi_factor)) }
          by_cases hww : w = d.win_id
          · rw [hww]
            have hfin := set_win_normal_rect_int_getWin_self _ d.win_id rect hset
            have hs : s.win_normal_rect_int d.win_id = some rect := by
              rw [← hnr]
              exact (win_normal_rect_int_congr rfl rfl).symm
            rw [hs]
            refine win_normal_rect_int_of_rectIntToF hfin ?_ ?_
            · rw [(set_win_normal_rect_int_same _ d.win_id rect).1]
            · rw [(set_win_normal_rect_int_same _ d.win_id rect).1]
              exact hf
          · refine win_normal_rect_int_congr ?_ ((set_win_normal_rect_int_same _ _ _).1)
            exact (set_win_normal_rect_int_getWin_ne _ _ _ hww).trans
              (getWin_set_ne hww _)

/-- Aborting a drag does not touch windows other than the dragged one. -/
theorem win_drag_end_abort_getWin_ne (s : WindowingState) {d : DraggingState}
    (hd : s.maybe_dragging_window = some d) {w : ℕ} (hw : w ≠ d.win_id) :
    (s.win_drag_end true).getWin w = s.getWin w := by
  unfold win_drag_end
  rw [hd]
  dsimp only [if_true]
  exact set_win_normal_rect_int_getWin_ne _ _ _ hw

theorem win_drag_end_hidpi (s : WindowingState) (ab : Bool) :
    (s.win_drag_end ab).hidpi_factor = s.hidpi_factor := by
  unfold win_drag_end
  cases hd : s.maybe_dragging_window with
  | none => rfl
  | some d =>
    cases ab with
    | true =>
      dsimp only [if_true]
      exact (set_win_normal_rect_int_same _ _ _).1
    | false =>
      dsimp only
      rw [if_neg (by simp)]
      cases ({ s with maybe_dragging_window := none } :
          WindowingState).win_normal_rect_int d.win_id with
      | none => rfl
      | some rect =>
        cases ({ s with maybe_dragging_window := none } :
            WindowingState).win_display_rect_int d.win_id with
        | none => rfl
        | some dr =>
          cases ({ s with maybe_dragging_window := none } :
              WindowingState).getWin d.win_id with
          | none => exact (set_win_normal_rect_int_same _ _ _).1
          | some win2 => exact (set_win_normal_rect_int_same _ _ _).1

theorem win_drag_start_fresh_hidpi (s : WindowingState) (id : ℕ) (ht : HitTest) :
    (win_drag_start_fresh s id ht).1.hidpi_factor = s.hidpi_factor := by
  unfold win_drag_start_fresh
  split
  · rfl
  · split
    · rfl
    · split
      · rfl
      · rfl

theorem win_drag_start_hidpi (s : WindowingState) (w : ℕ) (ht : HitTest) :
    (s.win_drag_start w ht).1.hidpi_factor = s.hidpi_factor := by
  unfold win_drag_start
  cases s.maybe_dragging_window with
  | none => exact win_drag_start_fresh_hidpi _ _ _
  | some d =>
    dsimp only
    by_cases hc : d.win_id = w
    · rw [if_pos hc]
      exact (win_drag_start_fresh_hidpi _ _ _).trans (win_drag_end_hidpi _ _)
    · rw [if_neg hc]
      exact (win_drag_start_fresh_hidpi _ _ _).trans (win_drag_end_hidpi _ _)

/-- If `win_drag_start_fresh` reports success, it only installed a drag
session whose starting rectangle is the window's current pixel-rounded
rectangle. -/
theorem win_drag_start_fresh_true {s : WindowingState} {w : ℕ} {ht : HitTest}
    (h : (win_drag_start_fresh s w ht).2 = true) :
    ∃ d', (win_drag_start_fresh s w ht).1
        = { s with maybe_dragging_window := some d' } ∧
      d'.win_id = w ∧ s.win_normal_rect_int w = some d'.starting_rect := by
  unfold win_drag_start_fresh at h ⊢
  by_cases hc : (ht.is_border_or_corner && s.win_is_collapsed w) = true
  · rw [if_pos hc] at h
    simp at h
  · rw [if_neg hc] at h ⊢
    cases hnr : s.win_normal_rect_int w with
    | none =>
      rw [hnr] at h
      simp at h
    | some r0 =>
      rw [hnr] at h
      dsimp only at h ⊢
      cases hdr : s.win_display_rect_int w with
      | none =>
        rw [hdr] at h
        simp at h
      | some dr =>
        rw [hdr] at h
        dsimp only at h ⊢
        exact ⟨_, rfl, rfl, rfl⟩

theorem win_normal_rect_int_isSome_getWin {s : WindowingState} {w : ℕ} {r : RectZ}
    (h : s.win_normal_rect_int w = some r) : ∃ win, s.getWin w = some win := by
  unfold win_normal_rect_int at h
  cases hg : s.getWin w with
  | none => rw [hg] at h; simp at h
  | some win => exact ⟨win, rfl⟩

/-- Counterexample to C4 as stated: a window whose stored rect has the
non-pixel-aligned x-coordinate 100.5 (at hidpi 1) comes back from
`win_drag_start` + `win_drag_end(abort=true)` with x = 101 — the stored
f32 rectangle is restored only up to device-pixel rounding, not to
bit-exact equality.  (All values involved are exactly representable and
exactly computed in `f32`, so the rational model is faithful here.) -/
theorem drag_abort_bitexact_counterexample :
    (((WindowingState.new.next_id.1.ensure_init 0
        ⟨(100, 100), some (201 / 2, 100), none, false⟩).getWin 0).map
          (fun v => v.rect.x)) = some (201 / 2) ∧
      ((WindowingState.new.next_id.1.ensure_init 0
        ⟨(100, 100), some (201 / 2, 100), none, false⟩).win_drag_start 0
          HitTest.titleBarOrDragArea).2 = true ∧
      (((((WindowingState.new.next_id.1.ensure_init 0
        ⟨(100, 100), some (201 / 2, 100), none, false⟩).win_drag_start 0
          HitTest.titleBarOrDragArea).1.win_drag_end true).getWin 0).map
            (fun v => v.rect.x)) = some 101 ∧
      (101 : ℚ) ≠ 201 / 2 := by
  refine ⟨?_, ?_, ?_, ?_⟩ <;> decide

/-- C4 (amended): if `win_drag_start(w, ht)` returns `true` (at a nonzero
display scale), an immediate `win_drag_end(abort=true)` restores `w`'s
rectangle to the device-pixel-rounded version of its pre-drag value:
`win_normal_rect_int` (and hence the pixel-aligned `win_normal_rect`) is
restored exactly; the raw stored f32 rect is recovered bit-exactly only
when it was already pixel-aligned. -/
theorem drag_abort_restores_rect (s : WindowingState) (w : ℕ) (ht : HitTest)
    (hf : s.hidpi_factor ≠ 0) (h : (s.win_drag_start w ht).2 = true) :
    ((s.win_drag_start w ht).1.win_drag_end true).win_normal_rect_int w
        = s.win_normal_rect_int w ∧
      ((s.win_drag_start w ht).1.win_drag_end true).win_normal_rect w
        = s.win_normal_rect w ∧
      (s.win_normal_rect_int w).isSome = true := by
  -- The state after the implicit termination of any previous drag.
  obtain ⟨s₁, hs₁, hint, hhid⟩ : ∃ s₁, (s.win_drag_start w ht) = win_drag_start_fresh s₁ w ht ∧
      s₁.win_normal_rect_int w = s.win_normal_rect_int w ∧
      s₁.hidpi_factor = s.hidpi_factor := by
    unfold win_drag_start
    cases hd : s.maybe_dragging_window with
    | none => exact ⟨s, rfl, rfl, rfl⟩
    | some d =>
      dsimp only
      by_cases hc : d.win_id = w
      · rw [if_pos hc]
        exact ⟨s.win_drag_end false, rfl,
          win_drag_end_commit_normal_rect_int s hf w, win_drag_end_hidpi s false⟩
      · rw [if_neg hc]
        refine ⟨s.win_drag_end true, rfl, ?_, win_drag_end_hidpi s true⟩
        exact win_normal_rect_int_congr
          (win_drag_end_abort_getWin_ne s hd (fun hh => hc hh.symm))
          (win_drag_end_hidpi s true)
  rw [hs₁] at h
  obtain ⟨d', hfr, hdw, hr⟩ := win_drag_start_fresh_true h
  obtain ⟨win₁, hwin₁⟩ := win_normal_rect_int_isSome_getWin hr
  have hend : ((win_drag_start_fresh s₁ w ht).1.win_drag_end true).getWin w
      = some { win₁ with rect := rectIntToF s₁.hidpi_factor d'.starting_rect } := by
    rw [hfr]
    unfold win_drag_end
    dsimp only [if_true]
    rw [hdw]
    exact set_win_normal_rect_int_getWin_self _ w d'.starting_rect hwin₁
  have hfinhid : ((win_drag_start_fresh s₁ w ht).1.win_drag_end true).hidpi_factor
      = s₁.hidpi_factor := by
    rw [hfr]
    exact win_drag_end_hidpi _ true
  have hfinal : ((win_drag_start_fresh s₁ w ht).1.win_drag_end true).win_normal_rect_int
      w = some d'.starting_rect := by
    refine win_normal_rect_int_of_rectIntToF hend ?_ ?_
    · rw [hfinhid]
    · rw [hfinhid, hhid]
      exact hf
  have hintEq : ((win_drag_start_fresh s₁ w ht).1.win_drag_end true).win_normal_rect_int
      w = s.win_normal_rect_int w := by
    rw [hfinal, ← hint, hr]
  refine ⟨by rw [hs₁]; exact hintEq, ?_, ?_⟩
  · rw [hs₁, win_normal_rect_eq_int_scaled, win_normal_rect_eq_int_scaled, hintEq]
    rw [hfinhid.trans hhid]
  · rw [← hint, hr]
    rfl

/-- Witness for C4 (amended) at the 100.5-positioned window. -/
theorem drag_abort_restores_rect_witness :
    (WindowingState.new.next_id.1.ensure_init 0
        ⟨(100, 100), some (201 / 2, 100), none, false⟩).hidpi_factor ≠ 0 ∧
      ((WindowingState.new.next_id.1.ensure_init 0
        ⟨(100, 100), some (201 / 2, 100), none, false⟩).win_drag_start 0
          HitTest.titleBarOrDragArea).2 = true ∧
      ((((WindowingState.new.next_id.1.ensure_init 0
        ⟨(100, 100), some (201 / 2, 100), none, false⟩).win_drag_start 0
          HitTest.titleBarOrDragArea).1.win_drag_end true).win_normal_rect_int 0
        = (WindowingState.new.next_id.1.ensure_init 0
            ⟨(100, 100), some (201 / 2, 100), none, false⟩).win_normal_rect_int 0 ∧
      (((WindowingState.new.next_id.1.ensure_init 0
        ⟨(100, 100), some (201 / 2, 100), none, false⟩).win_drag_start 0
          HitTest.titleBarOrDragArea).1.win_drag_end true).win_normal_rect 0
        = (WindowingState.new.next_id.1.ensure_init 0
            ⟨(100, 100), some (201 / 2, 100), none, false⟩).win_normal_rect 0 ∧
      ((WindowingState.new.next_id.1.ensure_init 0
          ⟨(100, 100), some (201 / 2, 100), none, false⟩).win_normal_rect_int
            0).isSome = true) :=
  ⟨by decide, by decide,
    drag_abort_restores_rect
      (WindowingState.new.next_id.1.ensure_init 0
        ⟨(100, 100), some (201 / 2, 100), none, false⟩) 0 HitTest.titleBarOrDragArea
      (by decide) (by decide)⟩

/-! ### C7: minimum size enforcement during drag-resize -/

theorem scanCands_sound {try_snap : ℤ → Option ℤ} {dim_range : DimRange}
    {v : ℤ} {j : ℕ} :
    ∀ (cands : List (ℕ × SnapSegment)) (i : ℕ),
      scanCands try_snap dim_range cands i = some (j, v) →
      ∃ p, try_snap p = some v
  | [], i => by intro h; simp [scanCands] at h
  | c :: rest, i => by
    intro h
    unfold scanCands at h
    by_cases hov : c.2.dim_range.overlaps_with dim_range
    · rw [if_pos hov] at h
      cases hts : try_snap c.2.perpendicular_dim with
      | none =>
        rw [hts] at h
        exact scanCands_sound rest (i + 1) h
      | some v0 =>
        rw [hts] at h
        refine ⟨c.2.perpendicular_dim, ?_⟩
        rw [hts]
        cases h
        rfl
    · rw [if_neg hov] at h
      exact scanCands_sound rest (i + 1) h

theorem snap_dimension_sound {try_snap : ℤ → Option ℤ} {dim_range : DimRange}
    {cands : List (ℕ × SnapSegment)} {last : Option ℕ} {v : ℤ} {last' : Option ℕ}
    (h : snap_dimension try_snap dim_range cands last = (some v, last')) :
    ∃ p, try_snap p = some v := by
  have scan_case : ∀ last'' : Option ℕ,
      (match scanCands try_snap dim_range cands 0 with
        | some (i, v1) => (some v1, some i)
        | none => ((none : Option ℤ), (none : Option ℕ))) = (some v, last'') →
      ∃ p, try_snap p = some v := by
    intro last'' hsc
    cases hs : scanCands try_snap dim_range cands 0 with
    | none =>
      rw [hs] at hsc
      simp at hsc
    | some p =>
      rw [hs] at hsc
      cases p with
      | mk j v0 =>
        dsimp only at hsc
        injection hsc with h1 h2
        injection h1 with h1
        subst h1
        exact scanCands_sound cands 0 hs
  unfold snap_dimension at h
  cases last with
  | none =>
    dsimp only [Option.bind] at h
    exact scan_case _ h
  | some li =>
    dsimp only [Option.bind] at h
    cases hc : cands.get? li with
    | none =>
      rw [hc] at h
      dsimp only at h
      exact scan_case _ h
    | some c =>
      rw [hc] at h
      dsimp only at h
      by_cases hov : c.2.dim_range.overlaps_with dim_range
      · rw [if_pos hov] at h
        cases hts : try_snap c.2.perpendicular_dim with
        | none =>
          rw [hts] at h
          dsimp only at h
          exact scan_case _ h
        | some v0 =>
          rw [hts] at h
          dsimp only at h
          injection h with h1 h2
          injection h1 with h1
          subst h1
          exact ⟨c.2.perpendicular_dim, hts⟩
      · rw [if_neg hov] at h
        dsimp only at h
        exact scan_case _ h

theorem snap_resize_lower_bound {snap_threshold lower_pos upper_pos edge min_dim v : ℤ}
    (h : snap_resize_lower snap_threshold lower_pos upper_pos edge min_dim = some v) :
    min_dim ≤ upper_pos - v := by
  unfold snap_resize_lower snap_move at h
  by_cases hth : |lower_pos - edge| < snap_threshold
  · rw [if_pos hth] at h
    simp only [Option.some_bind] at h
    by_cases hlt : upper_pos - edge < min_dim
    · rw [if_pos hlt] at h; cases h
    · rw [if_neg hlt] at h
      cases h
      exact le_of_not_lt hlt
  · rw [if_neg hth] at h
    simp at h

theorem snap_resize_upper_bound {snap_threshold lower_pos upper_pos edge min_dim v : ℤ}
    (h : snap_resize_upper snap_threshold lower_pos upper_pos edge min_dim = some v) :
    min_dim ≤ v - lower_pos := by
  unfold snap_resize_upper snap_move at h
  by_cases hth : |upper_pos - edge| < snap_threshold
  · rw [if_pos hth] at h
    simp only [Option.some_bind] at h
    by_cases hlt : edge - lower_pos < min_dim
    · rw [if_pos hlt] at h; cases h
    · rw [if_neg hlt] at h
      cases h
      exact le_of_not_lt hlt
  · rw [if_neg hth] at h
    simp at h

/-- The per-axis resize arithmetic never produces a size below the derived
minimum, with or without snapping. -/
theorem calc_new_dimensions_resize_min (action : WindowDragAction1D)
    (hact : action = WindowDragAction1D.resizeLower ∨
      action = WindowDragAction1D.resizeUpper)
    (start_pos start_size : ℤ) (dim_range : DimRange) (prev_display_size : ℤ)
    (delta win_min_size area_dim snap_margin snap_threshold : ℤ)
    (cands : List (ℕ × SnapSegment)) (last : Option ℕ) :
    win_min_size ≤ ((calc_new_dimensions action start_pos start_size dim_range
      prev_display_size delta win_min_size area_dim snap_margin snap_threshold cands
        last).1).2 := by
  rcases hact with hact | hact <;> subst hact
  · unfold calc_new_dimensions
    dsimp only
    cases hA : snap_resize_lower snap_threshold (start_pos + delta)
        (start_pos + start_size) (0 + snap_margin) win_min_size with
    | some v =>
      dsimp only
      have := snap_resize_lower_bound hA
      omega
    | none =>
      dsimp only
      cases hS : snap_dimension (fun pos_to_snap => snap_resize_lower snap_threshold
          (start_pos + delta) (start_pos + start_size) pos_to_snap win_min_size)
          dim_range cands last with
      | mk r last' =>
        cases r with
        | some v =>
          dsimp only
          have := snap_resize_lower_bound (snap_dimension_sound hS).choose_spec
          omega
        | none =>
          dsimp only
          have := le_max_right (start_size - delta) win_min_size
          omega
  · unfold calc_new_dimensions
    dsimp only
    cases hA : snap_resize_upper snap_threshold start_pos
        (start_pos + start_size + delta) (area_dim - snap_margin) win_min_size with
    | some v =>
      dsimp only
      have := snap_resize_upper_bound hA
      omega
    | none =>
      dsimp only
      cases hS : snap_dimension (fun pos_to_snap => snap_resize_upper snap_threshold
          start_pos (start_pos + start_size + delta) pos_to_snap win_min_size)
          dim_range cands last with
      | mk r last' =>
        cases r with
        | some v =>
          dsimp only
          have := snap_resize_upper_bound (snap_dimension_sound hS).choose_spec
          omega
        | none =>
          dsimp only
          have := le_max_right (start_size + delta) win_min_size
          omega

theorem bring_to_top_same (s : WindowingState) (w : ℕ) :
    (s.bring_to_top w).window_states = s.window_states ∧
      (s.bring_to_top w).hidpi_factor = s.hidpi_factor ∧
      (s.bring_to_top w).area_size = s.area_size ∧
      (s.bring_to_top w).frame_metrics = s.frame_metrics ∧
      (s.bring_to_top w).maybe_dragging_window = s.maybe_dragging_window := by
  unfold bring_to_top
  cases s.bottom_to_top_list.getLast? with
  | none => exact ⟨rfl, rfl, rfl, rfl, rfl⟩
  | some lastw =>
    dsimp only
    by_cases hl : lastw = w
    · rw [if_pos hl]
      exact ⟨rfl, rfl, rfl, rfl, rfl⟩
    · rw [if_neg hl]
      exact ⟨rfl, rfl, rfl, rfl, rfl⟩

/-- C7: a `win_drag_update` performing a resize on an axis never drives
that axis' size of the resulting device-pixel rectangle below the derived
minimum — `round((2·border + min_size.w)·hidpi)` for the width and
`round((2·border + title_bar_height + min_size.h)·hidpi)` for the height —
whether or not a snap was taken.  Since every update recomputes from the
drag's starting rectangle, this bounds every rectangle produced during a
drag-resize sequence. -/
theorem drag_update_min_size (s : WindowingState) (off : ℚ × ℚ) (d : DraggingState)
    (win : WindowState) (hf : s.hidpi_factor ≠ 0)
    (hd : s.maybe_dragging_window = some d) (hwin : s.getWin d.win_id = some win)
    (hupd : (s.win_drag_update off).2 = true) :
    ∀ r, (s.win_drag_update off).1.win_normal_rect_int d.win_id = some r →
      ((d.dragging_hit_test.to_drag_action_x = WindowDragAction1D.resizeLower ∨
        d.dragging_hit_test.to_drag_action_x = WindowDragAction1D.resizeUpper) →
        rrnd ((s.frame_metrics.border_thickness * 2 + win.min_size.w)
          * s.hidpi_factor) ≤ r.w) ∧
      ((d.dragging_hit_test.to_drag_action_y = WindowDragAction1D.resizeLower ∨
        d.dragging_hit_test.to_drag_action_y = WindowDragAction1D.resizeUpper) →
        rrnd ((s.frame_metrics.border_thickness * 2 + s.frame_metrics.title_bar_height
          + win.min_size.h) * s.hidpi_factor) ≤ r.h) := by
  intro r hr
  unfold win_drag_update at hupd hr
  rw [hd] at hupd hr
  dsimp only at hupd hr
  cases hdisp : s.win_display_rect_int d.win_id with
  | none =>
    rw [hdisp] at hupd
    simp at hupd
  | some prev_rect =>
    rw [hdisp] at hupd hr
    dsimp only at hupd hr
    have hb := bring_to_top_same s d.win_id
    have hg1 : (s.bring_to_top d.win_id).getWin d.win_id = some win :=
      (getWin_congr hb.1 d.win_id).trans hwin
    rw [hg1] at hupd hr
    dsimp only at hupd hr
    have key : ∀ (sA : WindowingState) (nr : RectZ),
        sA.window_states = (s.bring_to_top d.win_id).window_states →
        sA.hidpi_factor = s.hidpi_factor →
        (sA.set_win_normal_rect_int d.win_id nr).win_normal_rect_int d.win_id
          = some nr := by
      intro sA nr hws hh
      have hgA : sA.getWin d.win_id = some win := (getWin_congr hws d.win_id).trans hg1
      refine win_normal_rect_int_of_rectIntToF
        (set_win_normal_rect_int_getWin_self sA d.win_id nr hgA) ?_ ?_
      · rw [(set_win_normal_rect_int_same sA d.win_id nr).1]
      · rw [(set_win_normal_rect_int_same sA d.win_id nr).1, hh]
        exact hf
    set sB := s.bring_to_top d.win_id with hsB
    set res := sB.drag_new_rect s.hidpi_factor off d prev_rect win with hres
    have heq := key ({ sB with maybe_dragging_window := some { d with
        last_snapped_x := res.2.1, last_snapped_y := res.2.2 } }) res.1 rfl hb.2.1
    rw [heq] at hr
    injection hr with hr
    subst hr
    rw [hres]
    unfold drag_new_rect
    dsimp only
    rw [hb.2.2.2.1]
    constructor
    · intro hax
      exact calc_new_dimensions_resize_min _ hax _ _ _ _ _ _ _ _ _ _ _
    · intro hay
      exact calc_new_dimensions_resize_min _ hay _ _ _ _ _ _ _ _ _ _ _

/-- Witness for C7 at a concrete left-border resize drag shrunk past the
minimum. -/
theorem drag_update_min_size_witness :
    exampleResizeDrag.hidpi_factor ≠ 0 ∧
      exampleResizeDrag.maybe_dragging_window = some exampleResizeDragState ∧
      exampleResizeDrag.getWin exampleResizeDragState.win_id = some exampleResizeWin ∧
      (exampleResizeDrag.win_drag_update (300, 0)).2 = true ∧
      (∀ r, (exampleResizeDrag.win_drag_update (300, 0)).1.win_normal_rect_int
          exampleResizeDragState.win_id = some r →
        ((exampleResizeDragState.dragging_hit_test.to_drag_action_x
            = WindowDragAction1D.resizeLower ∨
          exampleResizeDragState.dragging_hit_test.to_drag_action_x
            = WindowDragAction1D.resizeUpper) →
          rrnd ((exampleResizeDrag.frame_metrics.border_thickness * 2
            + exampleResizeWin.min_size.w) * exampleResizeDrag.hidpi_factor) ≤ r.w) ∧
        ((exampleResizeDragState.dragging_hit_test.to_drag_action_y
            = WindowDragAction1D.resizeLower ∨
          exampleResizeDragState.dragging_hit_test.to_drag_action_y
            = WindowDragAction1D.resizeUpper) →
          rrnd ((exampleResizeDrag.frame_metrics.border_thickness * 2
            + exampleResizeDrag.frame_metrics.title_bar_height
            + exampleResizeWin.min_size.h) * exampleResizeDrag.hidpi_factor) ≤ r.h)) :=
  ⟨by decide, by decide, by decide, by decide,
    drag_update_min_size exampleResizeDrag (300, 0) exampleResizeDragState
      exampleResizeWin (by decide) (by decide) (by decide) (by decide)⟩

/-! ### C3: the z-order invariant -/

theorem assignZ_length :
    ∀ (sub : List ℕ) (zo : List ℕ) (base : ℕ), (assignZ zo base sub).length = zo.length
  | [], _, _ => rfl
  | u :: rest, zo, base => by
    show (assignZ (zo.set u base) (base + 1) rest).length = zo.length
    rw [assignZ_length rest (zo.set u base) (base + 1), List.length_set]

theorem assignZ_getElem_not_mem :
    ∀ (sub : List ℕ) (zo : List ℕ) (base v : ℕ), v ∉ sub →
      (assignZ zo base sub)[v]? = zo[v]?
  | [], _, _, _, _ => rfl
  | u :: rest, zo, base, v, hv => by
    show (assignZ (zo.set u base) (base + 1) rest)[v]? = zo[v]?
    rw [assignZ_getElem_not_mem rest (zo.set u base) (base + 1) v
      (fun hm => hv (List.mem_cons_of_mem u hm))]
    exact List.getElem?_set_ne
      (fun he => hv (by rw [← he]; exact List.mem_cons_self u rest))

theorem assignZ_getElem_mem :
    ∀ (sub : List ℕ) (zo : List ℕ) (base j v : ℕ), sub.Nodup →
      (∀ u ∈ sub, u < zo.length) → sub[j]? = some v →
      (assignZ zo base sub)[v]? = some (base + j)
  | [], _, _, j, _, _, _, hj => by simp at hj
  | u :: rest, zo, base, j, v, hnd, hbound, hj => by
    show (assignZ (zo.set u base) (base + 1) rest)[v]? = some (base + j)
    cases j with
    | zero =>
      have hv : u = v := by simpa using hj
      subst hv
      rw [assignZ_getElem_not_mem rest (zo.set u base) (base + 1) u
        (List.Nodup.not_mem hnd)]
      rw [List.getElem?_set_self (hbound u (List.mem_cons_self u rest))]
      simp
    | succ j' =>
      have hj' : rest[j']? = some v := by simpa using hj
      have := assignZ_getElem_mem rest (zo.set u base) (base + 1) j' v
        (List.Nodup.of_cons hnd)
        (fun x hx => by rw [List.length_set]; exact hbound x (List.mem_cons_of_mem u hx))
        hj'
      rw [this]
      congr 1
      omega

theorem zinv_btt_nodup {s : WindowingState} (h : ZInv s) :
    s.bottom_to_top_list.Nodup := by
  rw [List.nodup_iff_injective_get]
  rintro ⟨i, hi⟩ ⟨j, hj⟩ heq
  have hi' : i < s.window_states.length := by rw [← h.2.1]; exact hi
  have hj' : j < s.window_states.length := by rw [← h.2.1]; exact hj
  obtain ⟨u, hu, hun, hzu⟩ := h.2.2.2 i hi'
  obtain ⟨v, hv, hvn, hzv⟩ := h.2.2.2 j hj'
  have hgi : s.bottom_to_top_list[i]? = some (s.bottom_to_top_list.get ⟨i, hi⟩) := by
    rw [List.getElem?_eq_getElem hi]
    rfl
  have hgj : s.bottom_to_top_list[j]? = some (s.bottom_to_top_list.get ⟨j, hj⟩) := by
    rw [List.getElem?_eq_getElem hj]
    rfl
  have huv : u = v := by
    have h1 : u = s.bottom_to_top_list.get ⟨i, hi⟩ := by
      rw [hgi] at hu; exact (Option.some.inj hu).symm
    have h2 : v = s.bottom_to_top_list.get ⟨j, hj⟩ := by
      rw [hgj] at hv; exact (Option.some.inj hv).symm
    rw [h1, h2, heq]
  subst huv
  rw [hzu] at hzv
  exact Fin.ext (Option.some.inj hzv)

theorem zinv_btt_mem_lt {s : WindowingState} (h : ZInv s) :
    ∀ u ∈ s.bottom_to_top_list, u < s.window_states.length := by
  intro u hu
  obtain ⟨p, hp⟩ := List.mem_iff_getElem?.mp hu
  have hplen : p < s.bottom_to_top_list.length := by
    by_contra hge
    rw [List.getElem?_eq_none (le_of_not_lt hge)] at hp
    cases hp
  obtain ⟨u', hu', hun, _⟩ := h.2.2.2 p (by rw [← h.2.1]; exact hplen)
  rw [hp] at hu'
  cases Option.some.inj hu'
  exact hun

theorem rotl1_length (l : List ℕ) : (rotl1 l).length = l.length := by
  cases l with
  | nil => rfl
  | cons a rest => simp [rotl1]

/-- `bring_to_top` preserves the z-order invariant. -/
theorem zinv_bring_to_top {s : WindowingState} (h : ZInv s) (w : ℕ) :
    ZInv (s.bring_to_top w) := by
  unfold bring_to_top
  cases hlast : s.bottom_to_top_list.getLast? with
  | none => exact h
  | some lastw =>
    dsimp only
    by_cases hl : lastw = w
    · rw [if_pos hl]
      exact h
    · rw [if_neg hl]
      have hzo_len : s.window_z_orders.length = s.window_states.length := h.1
      have hdl : s.bottom_to_top_list.length = s.window_states.length := h.2.1
      have hne : s.bottom_to_top_list ≠ [] := by
        intro hc
        rw [hc] at hlast
        simp at hlast
      have hnpos : 0 < s.window_states.length := by
        rw [← hdl]
        exact List.length_pos.mpr hne
      set n := s.window_states.length with hn
      set z := s.window_z_orders.getD w 0 with hzdef
      have hz : z < n := by
        by_cases hw : w < n
        · obtain ⟨z', hz', hz'n, _⟩ := h.2.2.1 w hw
          have hzz : z = z' := by
            rw [hzdef, List.getD_eq_getElem?_getD, hz']
            rfl
          rw [hzz]
          exact hz'n
        · have hnone : s.window_z_orders[w]? = none :=
            List.getElem?_eq_none (by rw [hzo_len]; omega)
          rw [hzdef, List.getD_eq_getElem?_getD, hnone]
          exact hnpos
      have htake_len : (s.bottom_to_top_list.take z).length = z := by
        rw [List.length_take]
        omega
      cases hdd : s.bottom_to_top_list.drop z with
      | nil =>
        exfalso
        have hc := congrArg List.length hdd
        rw [List.length_drop] at hc
        simp at hc
        omega
      | cons hd tl =>
        dsimp only [rotl1]
        have htl_len : tl.length = n - z - 1 := by
          have hc := congrArg List.length hdd
          rw [List.length_drop] at hc
          simp at hc
          omega
        have hd_at : ∀ i, (hd :: tl)[i]? = s.bottom_to_top_list[z + i]? := by
          intro i
          rw [← hdd, List.getElem?_drop]
        have hd_head : s.bottom_to_top_list[z]? = some hd := by
          have h0 := hd_at 0
          simpa using h0.symm
        have hmem : ∀ u ∈ tl ++ [hd], u < n := by
          intro u hu
          have hm : u ∈ hd :: tl := (List.perm_append_singleton hd tl).mem_iff.mp hu
          rw [← hdd] at hm
          exact zinv_btt_mem_lt h u (List.Sublist.mem hm (List.drop_sublist z _))
        have hboundzo : ∀ u ∈ tl ++ [hd], u < s.window_z_orders.length := by
          intro u hu
          rw [hzo_len]
          exact hmem u hu
        have hsub_nodup : (tl ++ [hd]).Nodup := by
          have hdn : (hd :: tl).Nodup := by
            rw [← hdd]
            exact List.Nodup.sublist (List.drop_sublist z _) (zinv_btt_nodup h)
          exact ((List.perm_append_singleton hd tl).symm).nodup hdn
        have hbtt_lt : ∀ p, p < z →
            (s.bottom_to_top_list.take z ++ (tl ++ [hd]))[p]?
              = s.bottom_to_top_list[p]? := by
          intro p hp
          rw [List.getElem?_append, htake_len, if_pos hp, List.getElem?_take, if_pos hp]
        have hbtt_ge : ∀ p, z ≤ p →
            (s.bottom_to_top_list.take z ++ (tl ++ [hd]))[p]?
              = (tl ++ [hd])[p - z]? := by
          intro p hp
          rw [List.getElem?_append_right (by rw [htake_len]; exact hp), htake_len]
        have hsub_at : ∀ j, j < tl.length →
            (tl ++ [hd])[j]? = s.bottom_to_top_list[z + j + 1]? := by
          intro j hj
          rw [List.getElem?_append, if_pos hj]
          have hcons : tl[j]? = (hd :: tl)[j + 1]? := by simp
          rw [hcons, hd_at (j + 1)]
          congr 1
        have hsub_last : (tl ++ [hd])[tl.length]? = some hd := by
          rw [List.getElem?_append_right (le_refl _)]
          simp
        have hnotmem_of_small : ∀ v zv, s.window_z_orders[v]? = some zv → zv < z →
            v ∉ tl ++ [hd] := by
          intro v zv hzv hzvz hm
          have hm' : v ∈ hd :: tl := (List.perm_append_singleton hd tl).mem_iff.mp hm
          obtain ⟨i, hi⟩ := List.mem_iff_getElem?.mp hm'
          rw [hd_at i] at hi
          have hzi : z + i < n := by
            by_contra hge
            rw [List.getElem?_eq_none (by rw [hdl]; omega)] at hi
            cases hi
          obtain ⟨u, hu, hun, hzu⟩ := h.2.2.2 (z + i) hzi
          rw [hi] at hu
          cases Option.some.inj hu
          rw [hzv] at hzu
          have := Option.some.inj hzu
          omega
        refine ⟨?_, ?_, ?_, ?_⟩
        · show (assignZ s.window_z_orders z (tl ++ [hd])).length = n
          rw [assignZ_length, hzo_len]
        · show (s.bottom_to_top_list.take z ++ (tl ++ [hd])).length = n
          rw [List.length_append, htake_len]
          simp only [List.length_append, List.length_singleton]
          omega
        · intro v hv
          have hv' : v < n := hv
          obtain ⟨zv, hzv, hzvn, hbzv⟩ := h.2.2.1 v hv'
          by_cases hcase : zv < z
          · refine ⟨zv, ?_, hzvn, ?_⟩
            · show (assignZ s.window_z_orders z (tl ++ [hd]))[v]? = some zv
              rw [assignZ_getElem_not_mem _ _ _ _ (hnotmem_of_small v zv hzv hcase)]
              exact hzv
            · show (s.bottom_to_top_list.take z ++ (tl ++ [hd]))[zv]? = some v
              rw [hbtt_lt zv hcase]
              exact hbzv
          · push_neg at hcase
            by_cases hz0 : zv = z
            · have hvhd : v = hd := by
                rw [hz0] at hbzv
                rw [hd_head] at hbzv
                exact (Option.some.inj hbzv).symm
              refine ⟨z + tl.length, ?_, (by omega : z + tl.length < n), ?_⟩
              · show (assignZ s.window_z_orders z (tl ++ [hd]))[v]? = some (z + tl.length)
                exact assignZ_getElem_mem (tl ++ [hd]) _ z tl.length v hsub_nodup
                  hboundzo (by rw [hvhd]; exact hsub_last)
              · show (s.bottom_to_top_list.take z ++ (tl ++ [hd]))[z + tl.length]?
                  = some v
                rw [hbtt_ge _ (by omega)]
                have hix : z + tl.length - z = tl.length := by omega
                rw [hix, hsub_last, hvhd]
            · have hj : zv - z - 1 < tl.length := by omega
              have hsubj : (tl ++ [hd])[zv - z - 1]? = some v := by
                rw [hsub_at (zv - z - 1) hj]
                have hix : z + (zv - z - 1) + 1 = zv := by omega
                rw [hix]
                exact hbzv
              refine ⟨z + (zv - z - 1), ?_, (by omega : z + (zv - z - 1) < n), ?_⟩
              · show (assignZ s.window_z_orders z (tl ++ [hd]))[v]?
                  = some (z + (zv - z - 1))
                exact assignZ_getElem_mem (tl ++ [hd]) _ z (zv - z - 1) v hsub_nodup
                  hboundzo hsubj
              · show (s.bottom_to_top_list.take z ++ (tl ++ [hd]))[z + (zv - z - 1)]?
                  = some v
                rw [hbtt_ge _ (by omega)]
                have hix : z + (zv - z - 1) - z = zv - z - 1 := by omega
                rw [hix]
                exact hsubj
        · intro p hp
          have hp' : p < n := hp
          by_cases hpz : p < z
          · obtain ⟨u, hu, hun, hzu⟩ := h.2.2.2 p hp'
            refine ⟨u, ?_, hun, ?_⟩
            · show (s.bottom_to_top_list.take z ++ (tl ++ [hd]))[p]? = some u
              rw [hbtt_lt p hpz]
              exact hu
            · show (assignZ s.window_z_orders z (tl ++ [hd]))[u]? = some p
              rw [assignZ_getElem_not_mem _ _ _ _ (hnotmem_of_small u p hzu hpz)]
              exact hzu
          · push_neg at hpz
            by_cases hint : p - z < tl.length
            · have hbp : (tl ++ [hd])[p - z]? = s.bottom_to_top_list[p + 1]? := by
                rw [hsub_at _ hint]
                congr 1
                omega
              have hp1 : p + 1 < n := by omega
              obtain ⟨u, hu, hun, hzu⟩ := h.2.2.2 (p + 1) hp1
              refine ⟨u, ?_, hun, ?_⟩
              · show (s.bottom_to_top_list.take z ++ (tl ++ [hd]))[p]? = some u
                rw [hbtt_ge p hpz, hbp]
                exact hu
              · show (assignZ s.window_z_orders z (tl ++ [hd]))[u]? = some p
                have := assignZ_getElem_mem (tl ++ [hd]) s.window_z_orders z (p - z) u
                  hsub_nodup hboundzo (by rw [hbp]; exact hu)
                rw [this]
                congr 1
                omega
            · have hpe : p - z = tl.length := by omega
              obtain ⟨u0, hu0, hu0n, _⟩ := h.2.2.2 z (by omega)
              have hu0hd : u0 = hd := by
                rw [hd_head] at hu0
                exact (Option.some.inj hu0).symm
              refine ⟨hd, ?_, by rw [← hu0hd]; exact hu0n, ?_⟩
              · show (s.bottom_to_top_list.take z ++ (tl ++ [hd]))[p]? = some hd
                rw [hbtt_ge p hpz, hpe, hsub_last]
              · show (assignZ s.window_z_orders z (tl ++ [hd]))[hd]? = some p
                have := assignZ_getElem_mem (tl ++ [hd]) s.window_z_orders z tl.length
                  hd hsub_nodup hboundzo hsub_last
                rw [this]
                congr 1
                omega

theorem zinv_congr {s s' : WindowingState}
    (hws : s'.window_states.length = s.window_states.length)
    (hzo : s'.window_z_orders = s.window_z_orders)
    (hbtt : s'.bottom_to_top_list = s.bottom_to_top_list) (h : ZInv s) : ZInv s' := by
  unfold ZInv
  rw [hws, hzo, hbtt]
  exact h

theorem zinv_next_id {s : WindowingState} (h : ZInv s) : ZInv s.next_id.1 := by
  obtain ⟨h1, h2, h3, h4⟩ := h
  unfold next_id ZInv
  dsimp only
  refine ⟨by simp [h1], by simp [h2], ?_, ?_⟩
  · intro v hv
    have hv' : v < s.window_states.length + 1 := by simpa using hv
    by_cases hvn : v < s.window_states.length
    · obtain ⟨zv, hzv, hzvn, hbzv⟩ := h3 v hvn
      refine ⟨zv, ?_, ?_, ?_⟩
      · rw [List.getElem?_append, if_pos (by omega : v < s.window_z_orders.length)]
        exact hzv
      · simp
        omega
      · rw [List.getElem?_append,
          if_pos (by omega : zv < s.bottom_to_top_list.length)]
        exact hbzv
    · have hveq : v = s.window_states.length := by omega
      subst hveq
      refine ⟨s.window_states.length, ?_, by simp, ?_⟩
      · rw [List.getElem?_append_right (by omega), h1]
        simp
      · rw [List.getElem?_append_right (by omega), h2]
        simp
  · intro p hp
    have hp' : p < s.window_states.length + 1 := by simpa using hp
    by_cases hpn : p < s.window_states.length
    · obtain ⟨u, hu, hun, hzu⟩ := h4 p hpn
      refine ⟨u, ?_, ?_, ?_⟩
      · rw [List.getElem?_append, if_pos (by omega : p < s.bottom_to_top_list.length)]
        exact hu
      · simp
        omega
      · rw [List.getElem?_append, if_pos (by omega : u < s.window_z_orders.length)]
        exact hzu
    · have hpeq : p = s.window_states.length := by omega
      subst hpeq
      refine ⟨s.window_states.length, ?_, by simp, ?_⟩
      · rw [List.getElem?_append_right (by omega), h2]
        simp
      · rw [List.getElem?_append_right (by omega), h1]
        simp

/-- The z-structures and slot count untouched by an operation. -/
def ZSame (s' s : WindowingState) : Prop :=
  s'.window_z_orders = s.window_z_orders ∧
  s'.bottom_to_top_list = s.bottom_to_top_list ∧
  s'.window_states.length = s.window_states.length

theorem zinv_of_zsame {s s' : WindowingState} (hz : ZSame s' s) (h : ZInv s) :
    ZInv s' := zinv_congr hz.2.2 hz.1 hz.2.1 h

theorem zsame_refl (s : WindowingState) : ZSame s s := ⟨rfl, rfl, rfl⟩

theorem zsame_trans {s₁ s₂ s₃ : WindowingState} (h₁ : ZSame s₁ s₂) (h₂ : ZSame s₂ s₃) :
    ZSame s₁ s₃ :=
  ⟨h₁.1.trans h₂.1, h₁.2.1.trans h₂.2.1, h₁.2.2.trans h₂.2.2⟩

theorem zsame_set_window_states (s : WindowingState) (l : List (Option WindowState))
    (hlen : l.length = s.window_states.length) :
    ZSame { s with window_states := l } s := ⟨rfl, rfl, hlen⟩

theorem zsame_set_win_normal_rect_int (s : WindowingState) (id : ℕ) (r : RectZ) :
    ZSame (s.set_win_normal_rect_int id r) s := by
  unfold set_win_normal_rect_int
  cases s.getWin id with
  | none => exact zsame_refl s
  | some win => exact ⟨rfl, rfl, by simp⟩

theorem zsame_set_win_normal_rect (s : WindowingState) (id : ℕ) (r : RectQ) :
    ZSame (s.set_win_normal_rect id r) s := by
  unfold set_win_normal_rect
  cases s.getWin id with
  | none => exact zsame_refl s
  | some win => exact ⟨rfl, rfl, by simp⟩

theorem zsame_set_needed (s : WindowingState) (id : ℕ) (b : Bool) :
    ZSame (s.set_needed id b) s := by
  unfold set_needed
  cases s.getWin id with
  | none => exact zsame_refl s
  | some win => exact ⟨rfl, rfl, by simp⟩

theorem zsame_set_all_needed (s : WindowingState) (b : Bool) :
    ZSame (s.set_all_needed b) s := ⟨rfl, rfl, by simp [set_all_needed]⟩

theorem zsame_sweep_unneeded (s : WindowingState) :
    ZSame s.sweep_unneeded s := ⟨rfl, rfl, by simp [sweep_unneeded]⟩

theorem zsame_ensure_all_win_in_area (s : WindowingState) :
    ZSame s.ensure_all_win_in_area s := ⟨rfl, rfl, by simp [ensure_all_win_in_area]⟩

theorem zsame_set_win_min_size (s : WindowingState) (id : ℕ) (m : SizeQ) :
    ZSame (s.set_win_min_size id m) s := by
  unfold set_win_min_size
  cases s.getWin id with
  | none => exact zsame_refl s
  | some win => exact ⟨rfl, rfl, by simp⟩

theorem zsame_win_recompute_snapping_rect (s : WindowingState) (id : ℕ) :
    ZSame (s.win_recompute_snapping_rect id) s := by
  unfold win_recompute_snapping_rect
  cases hg : s.getWin id with
  | none => exact zsame_refl s
  | some win =>
    dsimp only
    by_cases hh : win.is_hidden
    · rw [if_pos hh]
      exact zsame_refl s
    · rw [if_neg hh]
      by_cases ha : win.anchor_x = Anchor.none ∧ win.anchor_y = Anchor.none
      · rw [if_pos ha]
        exact zsame_refl s
      · rw [if_neg ha]
        exact zsame_set_win_normal_rect_int _ _ _

theorem zsame_recompute_aux (s : WindowingState) :
    ∀ k : ℕ, ZSame (recompute_aux s k) s
  | 0 => zsame_refl s
  | k + 1 => zsame_trans
      (zsame_win_recompute_snapping_rect (recompute_aux s k) k)
      (zsame_recompute_aux s k)

theorem zsame_recompute_snapped_win_rects (s : WindowingState) :
    ZSame s.recompute_snapped_win_rects s :=
  zsame_recompute_aux s _

theorem zsame_set_dimensions (s : WindowingState) (a : ℚ × ℚ) (f : ℚ) :
    ZSame (s.set_dimensions a f) s := by
  unfold set_dimensions
  dsimp only
  split
  · exact zsame_trans (zsame_recompute_snapped_win_rects _) ⟨rfl, rfl, rfl⟩
  · exact ⟨rfl, rfl, rfl⟩

theorem zsame_win_drag_end (s : WindowingState) (ab : Bool) :
    ZSame (s.win_drag_end ab) s := by
  unfold win_drag_end
  cases hd : s.maybe_dragging_window with
  | none => exact zsame_refl s
  | some d =>
    dsimp only
    cases ab with
    | true =>
      rw [if_pos rfl]
      exact zsame_trans (zsame_set_win_normal_rect_int _ _ _) ⟨rfl, rfl, rfl⟩
    | false =>
      rw [if_neg (by simp)]
      cases ({ s with maybe_dragging_window := none } :
          WindowingState).win_normal_rect_int d.win_id with
      | none => exact ⟨rfl, rfl, rfl⟩
      | some rect =>
        cases ({ s with maybe_dragging_window := none } :
            WindowingState).win_display_rect_int d.win_id with
        | none => exact ⟨rfl, rfl, rfl⟩
        | some dr =>
          cases ({ s with maybe_dragging_window := none } :
              WindowingState).getWin d.win_id with
          | none =>
            exact zsame_trans (zsame_set_win_normal_rect_int _ _ _) ⟨rfl, rfl, rfl⟩
          | some win2 =>
            exact zsame_trans (zsame_set_win_normal_rect_int _ _ _)
              ⟨rfl, rfl, by simp⟩

theorem zsame_win_drag_start_fresh (s : WindowingState) (id : ℕ) (ht : HitTest) :
    ZSame (win_drag_start_fresh s id ht).1 s := by
  unfold win_drag_start_fresh
  split
  · exact zsame_refl s
  · split
    · exact zsame_refl s
    · split
      · exact zsame_refl s
      · exact ⟨rfl, rfl, rfl⟩

theorem zsame_win_drag_start (s : WindowingState) (id : ℕ) (ht : HitTest) :
    ZSame (s.win_drag_start id ht).1 s := by
  unfold win_drag_start
  cases s.maybe_dragging_window with
  | none => exact zsame_win_drag_start_fresh s id ht
  | some d =>
    dsimp only
    by_cases hc : d.win_id = id
    · rw [if_pos hc]
      exact zsame_trans (zsame_win_drag_start_fresh _ id ht) (zsame_win_drag_end s false)
    · rw [if_neg hc]
      exact zsame_trans (zsame_win_drag_start_fresh _ id ht) (zsame_win_drag_end s true)

theorem zinv_win_drag_update {s : WindowingState} (h : ZInv s) (off : ℚ × ℚ) :
    ZInv (s.win_drag_update off).1 := by
  unfold win_drag_update
  cases hd : s.maybe_dragging_window with
  | none => exact h
  | some d =>
    dsimp only
    cases hdisp : s.win_display_rect_int d.win_id with
    | none => exact zinv_of_zsame (zsame_win_drag_end s true) h
    | some prev_rect =>
      dsimp only
      cases hg : (s.bring_to_top d.win_id).getWin d.win_id with
      | none => exact zinv_bring_to_top h d.win_id
      | some win =>
        dsimp only
        refine zinv_of_zsame
          (zsame_trans (zsame_set_win_normal_rect_int _ _ _) ⟨rfl, rfl, rfl⟩) ?_
        exact zinv_bring_to_top h d.win_id

theorem zinv_ensure_init {s : WindowingState} (h : ZInv s) (id : ℕ)
    (ini : WindowInitialState) : ZInv (s.ensure_init id ini) := by
  unfold ensure_init
  cases hg : s.getWin id with
  | some win => exact h
  | none =>
    dsimp only
    refine zinv_bring_to_top ?_ id
    exact zinv_congr (s := s) (by simp) rfl rfl h

theorem zinv_set_win_hidden {s : WindowingState} (h : ZInv s) (id : ℕ) (b : Bool) :
    ZInv (s.set_win_hidden id b) := by
  unfold set_win_hidden
  cases hg : s.getWin id with
  | none => exact h
  | some win =>
    dsimp only
    split
    · exact h
    · refine zinv_of_zsame
        (zsame_trans (zsame_win_recompute_snapping_rect _ _)
          (zsame_set_window_states s _ (by simp))) h

theorem zinv_set_win_collapsed {s : WindowingState} (h : ZInv s) (id : ℕ) (b : Bool) :
    ZInv (s.set_win_collapsed id b) := by
  unfold set_win_collapsed
  cases hg : s.getWin id with
  | none => exact h
  | some win =>
    dsimp only
    split
    · exact h
    · refine zinv_of_zsame
        (zsame_trans (zsame_win_recompute_snapping_rect _ _)
          (zsame_set_window_states s _ (by simp))) h

theorem zinv_new : ZInv WindowingState.new := by
  refine ⟨rfl, rfl, ?_, ?_⟩ <;> intro v hv <;> simp [WindowingState.new] at hv

/-- Every reachable state satisfies the z-order invariant. -/
theorem zinv_reachable {s : WindowingState} (h : Reachable s) : ZInv s := by
  induction h with
  | init => exact zinv_new
  | step_next_id _ ih => exact zinv_next_id ih
  | step_ensure_init _ _ ih => exact zinv_ensure_init ih _ _
  | step_set_needed _ _ ih => exact zinv_of_zsame (zsame_set_needed _ _ _) ih
  | step_set_all_needed _ ih => exact zinv_of_zsame (zsame_set_all_needed _ _) ih
  | step_sweep_unneeded _ ih => exact zinv_of_zsame (zsame_sweep_unneeded _) ih
  | step_set_win_hidden _ _ ih => exact zinv_set_win_hidden ih _ _
  | step_set_win_collapsed _ _ ih => exact zinv_set_win_collapsed ih _ _
  | step_set_win_min_size _ _ ih => exact zinv_of_zsame (zsame_set_win_min_size _ _ _) ih
  | step_set_win_normal_rect _ _ ih =>
    exact zinv_of_zsame (zsame_set_win_normal_rect _ _ _) ih
  | step_set_win_normal_rect_int _ _ ih =>
    exact zinv_of_zsame (zsame_set_win_normal_rect_int _ _ _) ih
  | step_set_dimensions _ ih => exact zinv_of_zsame (zsame_set_dimensions _ _ _) ih
  | step_ensure_all_win_in_area _ ih =>
    exact zinv_of_zsame (zsame_ensure_all_win_in_area _) ih
  | step_bring_to_top _ _ _ ih => exact zinv_bring_to_top ih _
  | step_win_drag_start _ _ ih => exact zinv_of_zsame (zsame_win_drag_start _ _ _) ih
  | step_win_drag_end _ ih => exact zinv_of_zsame (zsame_win_drag_end _ _) ih
  | step_win_drag_update _ ih => exact zinv_win_drag_update ih _

/-- C3: in every reachable state,
`bottom_to_top_list[window_z_orders[w]] = w` holds for every slot `w`
(in particular for every live window), and `bring_to_top` applied to the
window currently at the end of `bottom_to_top_list` (the topmost window)
leaves both z-order structures unchanged. -/
theorem z_inverse_and_top_noop (s : WindowingState) (h : Reachable s) :
    (∀ w, w < s.window_states.length →
      s.bottom_to_top_list.getD (s.window_z_orders.getD w 0) 0 = w) ∧
    ∀ w, s.topmost_win = some w →
      (s.bring_to_top w).window_z_orders = s.window_z_orders ∧
      (s.bring_to_top w).bottom_to_top_list = s.bottom_to_top_list := by
  have hz := zinv_reachable h
  constructor
  · intro w hw
    obtain ⟨z, hzv, hzn, hbz⟩ := hz.2.2.1 w hw
    have h1 : s.window_z_orders.getD w 0 = z := by
      rw [List.getD_eq_getElem?_getD, hzv]
      rfl
    rw [h1, List.getD_eq_getElem?_getD, hbz]
    rfl
  · intro w hw
    have hw' : s.bottom_to_top_list.getLast? = some w := hw
    have hid : s.bring_to_top w = s := by
      unfold bring_to_top
      rw [hw']
      dsimp only
      rw [if_pos rfl]
    rw [hid]
    exact ⟨rfl, rfl⟩

/-- Witness for C3 at the reachable state with one allocated slot. -/
theorem z_inverse_and_top_noop_witness :
    (∀ w, w < WindowingState.new.next_id.1.window_states.length →
      WindowingState.new.next_id.1.bottom_to_top_list.getD
        (WindowingState.new.next_id.1.window_z_orders.getD w 0) 0 = w) ∧
    ∀ w, WindowingState.new.next_id.1.topmost_win = some w →
      (WindowingState.new.next_id.1.bring_to_top w).window_z_orders
        = WindowingState.new.next_id.1.window_z_orders ∧
      (WindowingState.new.next_id.1.bring_to_top w).bottom_to_top_list
        = WindowingState.new.next_id.1.bottom_to_top_list :=
  z_inverse_and_top_noop _ (Reachable.step_next_id Reachable.init)

end WindowingState

end Floatwin
